import Mathlib

/-! The three report mappers of trivy-operator-polr-adapter.

A shallow embedding of `pkg/adapters/auditr/mapper.go`,
`pkg/adapters/compliance/mapper.go` and `pkg/adapters/kubebench/mapper.go`,
followed by theorems about them.

Conventions of the embedding.

* Go `string` is `String`; the string-typed enumerations of the two API
  packages (`v1alpha1.Severity`, `v1alpha2.PolicyResult`,
  `v1alpha2.PolicySeverity`) stay strings, with their constants spelled out.
* A Go slice is a `List`; `append(s, x)` is `s ++ [x]`.
* A Go `map[string]string` is a `StrMap`: an association list in which
  `set` overwrites the entry of a key already present and `get` yields `""`
  for an absent key, as indexing a Go map does (a nil map is the empty one).
* The summary counters are Go `int`. A counter starts at zero and is
  incremented at most once per element of a slice, and the length of a
  slice is itself an `int`, so an increment never wraps: the counters are
  modelled in `Int` without reduction.
* `Map` receives a pointer to the existing record and mutates it in place.
  The embedding returns, next to the two Go results, the content the
  caller's record has after the call (`MapOutcome.existing`).
-/

/-! ## Go maps with string keys and values -/

/-- Association list standing for a Go `map[string]string`. -/
structure StrMap where
  entries : List (String × String)
deriving DecidableEq, Repr

namespace StrMap

/-- The empty map, `map[string]string{}` (or a nil map, when only read). -/
def empty : StrMap := ⟨[]⟩

/-- Assignment on an entry list: overwrite the key in place or add it. -/
def setEntries : List (String × String) → String → String → List (String × String)
  | [], k, v => [(k, v)]
  | (k', v') :: m, k, v =>
    if k' = k then (k, v) :: m else (k', v') :: setEntries m k v

/-- Go `m[k] = v`. -/
def set (m : StrMap) (k v : String) : StrMap := ⟨setEntries m.entries k v⟩

/-- Go `v, ok := m[k]`. -/
def get? (m : StrMap) (k : String) : Option String :=
  (m.entries.find? (fun e => decide (e.1 = k))).map Prod.snd

/-- Go `m[k]`: the zero value `""` when the key is absent. -/
def get (m : StrMap) (k : String) : String := (m.get? k).getD ""

/-- The keys of the map. -/
def keys (m : StrMap) : List String := m.entries.map Prod.fst

/-- Go `len(m)`. -/
def size (m : StrMap) : Nat := m.entries.length

end StrMap

/-! ## The Kubernetes and policy-report types the mappers read and write -/

/-- The `metav1.Time` of a report, observed through `Unix()` only. -/
structure Time where
  unix : Int
deriving DecidableEq, Repr

/-- The `metav1.Timestamp` stored in a result. -/
structure Timestamp where
  seconds : Int
  nanos : Int
deriving DecidableEq, Repr

/-- The method `(*metav1.Time).ProtoTime` on a non-nil receiver: whole seconds,
fractional part dropped. -/
def Time.ProtoTime (t : Time) : Timestamp := { seconds := t.unix, nanos := 0 }

/-- The type `metav1.OwnerReference`. -/
structure OwnerReference where
  apiVersion : String := ""
  kind : String := ""
  name : String := ""
  uid : String := ""
  controller : Option Bool := none
  blockOwnerDeletion : Option Bool := none
deriving DecidableEq, Repr

/-- The type `corev1.ObjectReference`. -/
structure ObjectReference where
  kind : String := ""
  namespace_ : String := ""
  name : String := ""
  uid : String := ""
  apiVersion : String := ""
  resourceVersion : String := ""
  fieldPath : String := ""
deriving DecidableEq, Repr

/-- The type `metav1.TypeMeta`. -/
structure TypeMeta where
  kind : String := ""
  apiVersion : String := ""
deriving DecidableEq, Repr

/-- The fields of `metav1.ObjectMeta` a mapper reads or writes, and three it
never touches (`uid`, `resourceVersion`, `annotations`). -/
structure ObjectMeta where
  name : String := ""
  namespace_ : String := ""
  uid : String := ""
  resourceVersion : String := ""
  creationTimestamp : Time := ⟨0⟩
  labels : StrMap := StrMap.empty
  annotations : StrMap := StrMap.empty
  ownerReferences : List OwnerReference := []
deriving DecidableEq, Repr

/-- The type `v1alpha2.PolicyReportSummary`; the literal
`PolicyReportSummary{}` is `{}`. -/
structure PolicyReportSummary where
  pass : Int := 0
  fail : Int := 0
  warn : Int := 0
  error : Int := 0
  skip : Int := 0
deriving DecidableEq, Repr

/-- The string type `v1alpha2.PolicyResult`. -/
abbrev PolicyResult := String

/-- The string type `v1alpha2.PolicySeverity`. -/
abbrev PolicySeverity := String

namespace v1alpha2

def StatusPass : PolicyResult := "pass"
def StatusFail : PolicyResult := "fail"
def StatusWarn : PolicyResult := "warn"
def StatusError : PolicyResult := "error"
def StatusSkip : PolicyResult := "skip"

def SeverityCritical : PolicySeverity := "critical"
def SeverityHigh : PolicySeverity := "high"
def SeverityMedium : PolicySeverity := "medium"
def SeverityLow : PolicySeverity := "low"
def SeverityInfo : PolicySeverity := "info"

end v1alpha2

/-- The string type `v1alpha1.Severity` of the scanner reports. -/
abbrev Severity := String

namespace v1alpha1

def SeverityCritical : Severity := "CRITICAL"
def SeverityHigh : Severity := "HIGH"
def SeverityMedium : Severity := "MEDIUM"
def SeverityLow : Severity := "LOW"
def SeverityNone : Severity := "NONE"
def SeverityUnknown : Severity := "UNKNOWN"

end v1alpha1

/-- The type `v1alpha2.PolicyReportResult`. -/
structure PolicyReportResult where
  source : String := ""
  policy : String := ""
  rule : String := ""
  resources : List ObjectReference := []
  message : String := ""
  result : PolicyResult := ""
  scored : Bool := false
  properties : StrMap := StrMap.empty
  timestamp : Timestamp := ⟨0, 0⟩
  category : String := ""
  severity : PolicySeverity := ""
deriving DecidableEq, Repr

/-- The types `v1alpha2.PolicyReport` and `v1alpha2.ClusterPolicyReport`: both
are a `TypeMeta`, an `ObjectMeta`, a summary and a list of results. -/
structure PolicyReport where
  typeMeta : TypeMeta := {}
  objectMeta : ObjectMeta := {}
  summary : PolicyReportSummary := {}
  results : List PolicyReportResult := []
deriving DecidableEq, Repr

/-- What a call of `Map` leaves behind: the record behind the returned
pointer (`none` for nil), the returned flag, and the content the record
passed by the caller has after the call (`none` when nil was passed). -/
structure MapOutcome where
  record : Option PolicyReport
  updated : Bool
  existing : Option PolicyReport
deriving DecidableEq, Repr

/-- The call `fmt.Sprintf("%s-%s", a, b)`. -/
def sprintfDash (a b : String) : String := a ++ "-" ++ b

/-- The call `fmt.Sprintf("%s %s", a, b)`. -/
def sprintfSpace (a b : String) : String := a ++ " " ++ b

/-- The call `fmt.Sprintf("%d. message", index)` for an index of a slice. -/
def sprintfMessage (index : Nat) : String := Nat.repr index ++ ". message"

/-! ## `pkg/adapters/auditr/mapper.go` -/

namespace auditr

/-- The type `v1alpha1.Check`. -/
structure Check where
  id : String := ""
  title : String := ""
  description : String := ""
  severity : Severity := ""
  category : String := ""
  messages : List String := []
  remediation : String := ""
  success : Bool := false
deriving DecidableEq, Repr

/-- The type `v1alpha1.ConfigAuditReportData`. -/
structure ConfigAuditReportData where
  updateTimestamp : Time := ⟨0⟩
  checks : List Check := []
deriving DecidableEq, Repr

/-- The type `v1alpha1.ConfigAuditReport`. -/
structure ConfigAuditReport where
  typeMeta : TypeMeta := {}
  objectMeta : ObjectMeta := {}
  report : ConfigAuditReportData := {}
deriving DecidableEq, Repr

def resultSource : String := "Trivy ConfigAudit"
def reportPrefix : String := "trivy-audit-polr"
def containerLabel : String := "trivy-operator.container.name"
def kindLabel : String := "trivy-operator.resource.kind"
def nameLabel : String := "trivy-operator.resource.name"
def namespaceLabel : String := "trivy-operator.resource.namespace"

def reportLabels : StrMap :=
  ⟨[("app.kubernetes.io/created-by", "trivy-operator-polr-adapter"),
    ("trivy-operator.source", "ConfigAuditReport")]⟩

def MapResult (success : Bool) : PolicyResult :=
  if success then v1alpha2.StatusPass else v1alpha2.StatusFail

def MapServerity (severity : Severity) : PolicySeverity :=
  if severity = v1alpha1.SeverityUnknown then ""
  else if severity = v1alpha1.SeverityLow then v1alpha2.SeverityLow
  else if severity = v1alpha1.SeverityMedium then v1alpha2.SeverityMedium
  else if severity = v1alpha1.SeverityHigh then v1alpha2.SeverityHigh
  else if severity = v1alpha1.SeverityCritical then v1alpha2.SeverityCritical
  else v1alpha2.SeverityInfo

def CreateObjectReference (report : ConfigAuditReport) : ObjectReference :=
  match report.objectMeta.ownerReferences with
  | [ref] =>
    { namespace_ := report.objectMeta.namespace_
      apiVersion := ref.apiVersion
      kind := ref.kind
      name := ref.name
      uid := ref.uid }
  | _ =>
    { namespace_ := report.objectMeta.labels.get namespaceLabel
      kind := report.objectMeta.labels.get kindLabel
      name := report.objectMeta.labels.get nameLabel }

def GeneratePolicyReportName (report : ConfigAuditReport) : String :=
  let name :=
    match report.objectMeta.ownerReferences with
    | [ref] => ref.name
    | _ => report.objectMeta.name
  sprintfDash reportPrefix name

def CreatePolicyReport (report : ConfigAuditReport) : PolicyReport :=
  { objectMeta :=
      { name := GeneratePolicyReportName report
        namespace_ := report.objectMeta.namespace_
        labels := reportLabels
        ownerReferences := report.objectMeta.ownerReferences }
    summary := {}
    results := [] }

/-- Lines 59-66 of `Map`: the messages of a check that are not empty. -/
def nonEmptyMessages (check : Check) : List String :=
  check.messages.filter (fun m => decide (m ≠ ""))

/-- Lines 80-82 of `Map`: one indexed property per message, written into the
fresh map of the check. -/
def indexedProps (messages : List String) : StrMap :=
  messages.enum.foldl (fun props im => props.set (sprintfMessage im.1) im.2) StrMap.empty

/-- Lines 74-83 of `Map`: the message and the properties of a check. -/
def messageAndProps (check : Check) : String × StrMap :=
  match nonEmptyMessages check with
  | [m] => (m, StrMap.empty.set "description" check.description)
  | messages => (check.description, indexedProps messages)

/-- Lines 85-96 of `Map`: the result appended for a check. -/
def checkResult (report : ConfigAuditReport) (res : ObjectReference) (check : Check) :
    PolicyReportResult :=
  { policy := check.title
    rule := check.id
    message := (messageAndProps check).1
    properties := (messageAndProps check).2
    resources := [res]
    result := MapResult check.success
    severity := MapServerity check.severity
    category := check.category
    timestamp := report.objectMeta.creationTimestamp.ProtoTime
    source := resultSource }

/-- Lines 68-72 of `Map`: the counter a check increments. -/
def count (summary : PolicyReportSummary) (check : Check) : PolicyReportSummary :=
  if check.success then { summary with pass := summary.pass + 1 }
  else { summary with fail := summary.fail + 1 }

/-- The body of the loop of `Map` over the checks (lines 56-97). -/
def loopBody (report : ConfigAuditReport) (res : ObjectReference) (polr : PolicyReport)
    (check : Check) : PolicyReport :=
  { polr with
    summary := count polr.summary check
    results := polr.results ++ [checkResult report res check] }

def Map (report : ConfigAuditReport) (polr : Option PolicyReport) : MapOutcome :=
  if report.report.checks.length = 0 then
    { record := none, updated := false, existing := polr }
  else
    let start : PolicyReport × Bool :=
      match polr with
      | none => (CreatePolicyReport report, false)
      | some p => ({ p with summary := {}, results := [] }, true)
    let res := CreateObjectReference report
    let final := report.report.checks.foldl (loopBody report res) start.1
    { record := some final, updated := start.2, existing := polr.map (fun _ => final) }

end auditr

/-! ## `pkg/adapters/compliance/mapper.go` -/

namespace compliance

/-- The type `v1alpha1.ResultDetails`. -/
structure ResultDetails where
  name : String := ""
  namespace_ : String := ""
  msg : String := ""
  status : String := ""
deriving DecidableEq, Repr

/-- The type `v1alpha1.ScannerCheckResult`. -/
structure ScannerCheckResult where
  objectType : String := ""
  id : String := ""
  remediation : String := ""
  details : List ResultDetails := []
deriving DecidableEq, Repr

/-- The type `v1alpha1.ControlCheckDetails`. -/
structure ControlCheckDetails where
  id : String := ""
  name : String := ""
  description : String := ""
  severity : Severity := ""
  scannerCheckResult : List ScannerCheckResult := []
deriving DecidableEq, Repr

/-- The type `v1alpha1.ClusterComplianceSummary`: two Go `int` supplied by
the scanner. -/
structure ClusterComplianceSummary where
  passCount : Int := 0
  failCount : Int := 0
deriving DecidableEq, Repr

/-- The type `v1alpha1.ClusterComplianceDetailReportData`. -/
structure ClusterComplianceDetailReportData where
  updateTimestamp : Time := ⟨0⟩
  type : String := ""
  summary : ClusterComplianceSummary := {}
  controlChecks : List ControlCheckDetails := []
deriving DecidableEq, Repr

/-- The type `v1alpha1.ClusterComplianceDetailReport`. -/
structure ClusterComplianceDetailReport where
  typeMeta : TypeMeta := {}
  objectMeta : ObjectMeta := {}
  report : ClusterComplianceDetailReportData := {}
deriving DecidableEq, Repr

def trivySource : String := "Trivy Compliance"
def reportPrefix : String := "trivy-compliance-cpolr"

def reportLabels : StrMap :=
  ⟨[("app.kubernetes.io/created-by", "trivy-operator-polr-adapter"),
    ("trivy-operator.source", "ClusterComplianceDetailReport")]⟩

def MapServerity (severity : Severity) : PolicySeverity :=
  if severity = v1alpha1.SeverityUnknown then ""
  else if severity = v1alpha1.SeverityLow then v1alpha2.SeverityLow
  else if severity = v1alpha1.SeverityMedium then v1alpha2.SeverityMedium
  else if severity = v1alpha1.SeverityHigh then v1alpha2.SeverityHigh
  else if severity = v1alpha1.SeverityCritical then v1alpha2.SeverityCritical
  else v1alpha2.SeverityInfo

def GeneratePolicyReportName (name : String) : String :=
  sprintfDash reportPrefix name

def CreatePolicyReport (report : ClusterComplianceDetailReport) : PolicyReport :=
  { objectMeta :=
      { name := GeneratePolicyReportName report.objectMeta.name
        labels := reportLabels
        ownerReferences :=
          [{ apiVersion := report.typeMeta.apiVersion
             kind := report.typeMeta.kind
             name := report.objectMeta.name
             uid := report.objectMeta.uid }] }
    summary := { fail := report.report.summary.failCount }
    results := [] }

/-- Lines 48-65 of `Map`: the resource references and the properties of one
detail entry. -/
def resourcesAndProps (check : ControlCheckDetails) (result : ScannerCheckResult)
    (details : ResultDetails) : List ObjectReference × StrMap :=
  let props : StrMap := StrMap.empty.set "Description" check.description
  let resProps : List ObjectReference × StrMap :=
    if details.name ≠ "" then
      ([{ kind := result.objectType, name := details.name, namespace_ := details.namespace_ }],
        props)
    else
      ([], props.set "objectType" result.objectType)
  if result.id ≠ "" then (resProps.1, resProps.2.set "id" result.id) else resProps

/-- Lines 67-77 of `Map`: the result appended for one detail entry. -/
def detailResult (report : ClusterComplianceDetailReport) (check : ControlCheckDetails)
    (result : ScannerCheckResult) (details : ResultDetails) : PolicyReportResult :=
  { policy := check.name
    rule := result.id
    message := details.msg
    result := v1alpha2.StatusFail
    severity := MapServerity check.severity
    timestamp := report.report.updateTimestamp.ProtoTime
    source := trivySource
    resources := (resourcesAndProps check result details).1
    properties := (resourcesAndProps check result details).2 }

/-- The body of the innermost loop of `Map` (lines 47-78). -/
def loopBody (report : ClusterComplianceDetailReport) (check : ControlCheckDetails)
    (result : ScannerCheckResult) (polr : PolicyReport) (details : ResultDetails) :
    PolicyReport :=
  { polr with results := polr.results ++ [detailResult report check result details] }

def Map (report : ClusterComplianceDetailReport) (polr : Option PolicyReport) : MapOutcome :=
  let start : PolicyReport × Bool :=
    match polr with
    | none => (CreatePolicyReport report, false)
    | some p => ({ p with summary := {}, results := [] }, true)
  let final :=
    report.report.controlChecks.foldl
      (fun polr check =>
        check.scannerCheckResult.foldl
          (fun polr result => result.details.foldl (loopBody report check result) polr)
          polr)
      start.1
  { record := some final, updated := start.2, existing := polr.map (fun _ => final) }

end compliance

/-! ## `pkg/adapters/kubebench/mapper.go` -/

namespace kubebench

/-- The type `v1alpha1.CISKubeBenchResult`. -/
structure CISKubeBenchResult where
  testNumber : String := ""
  testDesc : String := ""
  remediation : String := ""
  status : String := ""
  scored : Bool := false
deriving DecidableEq, Repr

/-- The type `v1alpha1.CISKubeBenchTests`. -/
structure CISKubeBenchTests where
  section_ : String := ""
  desc : String := ""
  results : List CISKubeBenchResult := []
deriving DecidableEq, Repr

/-- The type `v1alpha1.CISKubeBenchSection`. -/
structure CISKubeBenchSection where
  id : String := ""
  text : String := ""
  tests : List CISKubeBenchTests := []
deriving DecidableEq, Repr

/-- The type `v1alpha1.CISKubeBenchReportData`. -/
structure CISKubeBenchReportData where
  updateTimestamp : Time := ⟨0⟩
  sections : List CISKubeBenchSection := []
deriving DecidableEq, Repr

/-- The type `v1alpha1.CISKubeBenchReport`. -/
structure CISKubeBenchReport where
  typeMeta : TypeMeta := {}
  objectMeta : ObjectMeta := {}
  report : CISKubeBenchReportData := {}
deriving DecidableEq, Repr

def StatusFail : String := "FAIL"
def StatusWarn : String := "WARN"
def StatusInfo : String := "INFO"
def StatusPass : String := "PASS"

def source : String := "Trivy CIS Kube Bench"
def reportPrefix : String := "trivy-cis-cpolr"

def reportLabels : StrMap :=
  ⟨[("managed-by", "trivy-operator-polr-adapter"),
    ("trivy-operator.source", "CISKubeBenchReport")]⟩

def MapResult (status : String) : PolicyResult :=
  if status = StatusFail then v1alpha2.StatusFail
  else if status = StatusPass then v1alpha2.StatusPass
  else if status = StatusWarn then v1alpha2.StatusWarn
  else v1alpha2.StatusSkip

def MapServerity (severity : Severity) : PolicySeverity :=
  if severity = v1alpha1.SeverityUnknown ∨ severity = v1alpha1.SeverityNone then ""
  else if severity = v1alpha1.SeverityLow then v1alpha2.SeverityLow
  else if severity = v1alpha1.SeverityMedium then v1alpha2.SeverityMedium
  else v1alpha2.SeverityHigh

def GeneratePolicyReportName (name : String) : String :=
  sprintfDash reportPrefix name

def CreatePolicyReport (report : CISKubeBenchReport) : PolicyReport :=
  { objectMeta :=
      { name := GeneratePolicyReportName report.objectMeta.name
        namespace_ := report.objectMeta.namespace_
        labels := reportLabels
        ownerReferences :=
          [{ apiVersion := report.typeMeta.apiVersion
             kind := report.typeMeta.kind
             name := report.objectMeta.name
             uid := report.objectMeta.uid }] }
    summary := {}
    results := [] }

/-- Lines 54-63 of `Map`: the switch on the status of a leaf result. -/
def count (summary : PolicyReportSummary) (status : String) : PolicyReportSummary :=
  if status = StatusFail then { summary with fail := summary.fail + 1 }
  else if status = StatusPass then { summary with pass := summary.pass + 1 }
  else if status = StatusWarn then { summary with warn := summary.warn + 1 }
  else if status = StatusInfo then { summary with skip := summary.skip + 1 }
  else summary

/-- Lines 65-74 of `Map`: the result appended for a leaf result. -/
def leafResult (report : CISKubeBenchReport) (sect : CISKubeBenchSection)
    (test : CISKubeBenchTests) (result : CISKubeBenchResult) : PolicyReportResult :=
  { policy := sprintfSpace test.section_ test.desc
    rule := sprintfSpace result.testNumber result.testDesc
    message := result.remediation
    scored := result.scored
    result := MapResult result.status
    category := sect.text
    timestamp := report.objectMeta.creationTimestamp.ProtoTime
    source := source }

/-- The body of the innermost loop of `Map` (lines 53-75). -/
def loopBody (report : CISKubeBenchReport) (sect : CISKubeBenchSection)
    (test : CISKubeBenchTests) (polr : PolicyReport) (result : CISKubeBenchResult) :
    PolicyReport :=
  { polr with
    summary := count polr.summary result.status
    results := polr.results ++ [leafResult report sect test result] }

def Map (report : CISKubeBenchReport) (polr : Option PolicyReport) : MapOutcome :=
  let start : PolicyReport × Bool :=
    match polr with
    | none => (CreatePolicyReport report, false)
    | some p => ({ p with summary := {}, results := [] }, true)
  let final :=
    report.report.sections.foldl
      (fun polr sect =>
        sect.tests.foldl
          (fun polr test => test.results.foldl (loopBody report sect test) polr)
          polr)
      start.1
  { record := some final, updated := start.2, existing := polr.map (fun _ => final) }

end kubebench

/-! ## Closed forms of the three loops

The definitions of this section are not translations of source functions:
they name what the loops of the three `Map` functions compute, and the
lemmas `Map_eq` below prove that they do. -/

namespace auditr

/-- The record a mapping pass starts from: the fresh one, or the existing one. -/
def base (report : ConfigAuditReport) (polr : Option PolicyReport) : PolicyReport :=
  match polr with
  | none => CreatePolicyReport report
  | some p => p

/-- The record `Map` returns for a report that has checks. -/
def mapped (report : ConfigAuditReport) (polr : Option PolicyReport) : PolicyReport :=
  { typeMeta := (base report polr).typeMeta
    objectMeta := (base report polr).objectMeta
    summary :=
      { pass := report.report.checks.countP (fun c => c.success)
        fail := report.report.checks.countP (fun c => !c.success) }
    results := report.report.checks.map (checkResult report (CreateObjectReference report)) }

end auditr

namespace compliance

/-- The (check, result, detail) entries of a report, in the order the three
nested loops of `Map` visit them. -/
def triples (report : ClusterComplianceDetailReport) :
    List (ControlCheckDetails × ScannerCheckResult × ResultDetails) :=
  report.report.controlChecks.flatMap (fun check =>
    check.scannerCheckResult.flatMap (fun result =>
      result.details.map (fun details => (check, result, details))))

/-- The record a mapping pass starts from, before its summary and results
are reset. -/
def base (report : ClusterComplianceDetailReport) (polr : Option PolicyReport) : PolicyReport :=
  match polr with
  | none => CreatePolicyReport report
  | some p => p

/-- The summary a mapping pass ends with: no loop of `Map` writes it. -/
def startSummary (report : ClusterComplianceDetailReport) (polr : Option PolicyReport) :
    PolicyReportSummary :=
  match polr with
  | none => { fail := report.report.summary.failCount }
  | some _ => {}

/-- The record `Map` returns. -/
def mapped (report : ClusterComplianceDetailReport) (polr : Option PolicyReport) :
    PolicyReport :=
  { typeMeta := (base report polr).typeMeta
    objectMeta := (base report polr).objectMeta
    summary := startSummary report polr
    results := (triples report).map (fun x => detailResult report x.1 x.2.1 x.2.2) }

end compliance

namespace kubebench

/-- The leaf results of a report with their section and test, in the order
the three nested loops of `Map` visit them. -/
def leaves (report : CISKubeBenchReport) :
    List (CISKubeBenchSection × CISKubeBenchTests × CISKubeBenchResult) :=
  report.report.sections.flatMap (fun sect =>
    sect.tests.flatMap (fun test =>
      test.results.map (fun result => (sect, test, result))))

/-- The statuses of the leaf results of a report, in traversal order. -/
def statuses (report : CISKubeBenchReport) : List String :=
  (leaves report).map (fun x => x.2.2.status)

/-- The record a mapping pass starts from, before its summary and results
are reset. -/
def base (report : CISKubeBenchReport) (polr : Option PolicyReport) : PolicyReport :=
  match polr with
  | none => CreatePolicyReport report
  | some p => p

/-- The record `Map` returns. -/
def mapped (report : CISKubeBenchReport) (polr : Option PolicyReport) : PolicyReport :=
  { typeMeta := (base report polr).typeMeta
    objectMeta := (base report polr).objectMeta
    summary := (statuses report).foldl count {}
    results := (leaves report).map (fun x => leafResult report x.1 x.2.1 x.2.2) }

end kubebench

/-! ## Reading a decimal numeral back

Used to show that `fmt.Sprintf("%d. message", index)` gives different keys
for different indices. -/

/-- The value of a decimal digit character. -/
def digitVal (c : Char) : Nat := c.toNat - 48

/-- The number a list of decimal digits stands for, most significant digit
first. -/
def decodeDigits (l : List Char) : Nat := l.foldl (fun a c => a * 10 + digitVal c) 0

/-! ## Concrete inputs used by the witnesses and counterexamples -/

/-- A record left by an earlier mapping: two counters set, one stale result. -/
def staleRecord : PolicyReport :=
  { objectMeta := { name := "trivy-audit-polr-nginx", namespace_ := "default" }
    summary := { pass := 4, fail := 2 }
    results := [{ policy := "old", result := v1alpha2.StatusFail }] }

/-- An audit report without checks. -/
def auditr.emptyReport : auditr.ConfigAuditReport :=
  { objectMeta := { name := "replicaset-nginx", namespace_ := "default" } }

/-- An audit report with two checks: a passing one without messages and a
failing one with two messages. -/
def auditr.twoChecks : auditr.ConfigAuditReport :=
  { objectMeta :=
      { name := "replicaset-nginx", namespace_ := "default"
        ownerReferences := [{ kind := "ReplicaSet", name := "nginx" }] }
    report :=
      { checks :=
          [{ id := "KSV001", title := "Process can elevate its own privileges"
             description := "d1", severity := "MEDIUM", success := true },
           { id := "KSV003", title := "Default capabilities not dropped"
             description := "d2", severity := "LOW", success := false
             messages := ["container a", "container b"] }] } }

/-- A compliance report whose scanner counted one failure, found on one
object. -/
def compliance.oneFailure : compliance.ClusterComplianceDetailReport :=
  { objectMeta := { name := "nsa" }
    report :=
      { summary := { failCount := 1 }
        controlChecks :=
          [{ id := "1.0", name := "Non-root containers", severity := "MEDIUM"
             scannerCheckResult :=
               [{ objectType := "Pod", id := "KSV012"
                  details := [{ name := "nginx", namespace_ := "default", msg := "runs as root" }] }] }] } }

/-- A benchmark report with one leaf result of each recognised status. -/
def kubebench.fourLeaves : kubebench.CISKubeBenchReport :=
  { objectMeta := { name := "node-1" }
    report :=
      { sections :=
          [{ id := "1", text := "Control Plane"
             tests :=
               [{ section_ := "1.1", desc := "Configuration Files"
                  results :=
                    [{ testNumber := "1.1.1", status := "FAIL" },
                     { testNumber := "1.1.2", status := "PASS" }] },
                { section_ := "1.2", desc := "API Server"
                  results :=
                    [{ testNumber := "1.2.1", status := "WARN" },
                     { testNumber := "1.2.2", status := "INFO" }] }] }] } }

/-- A benchmark report with a single leaf result, whose status is none of the
four statuses of kube-bench. -/
def kubebench.unknownStatus : kubebench.CISKubeBenchReport :=
  { objectMeta := { name := "node-1" }
    report :=
      { sections :=
          [{ id := "1", text := "Control Plane"
             tests :=
               [{ section_ := "1.1", desc := "Configuration Files"
                  results := [{ testNumber := "1.1.1", status := "ERROR" }] }] }] } }

/-- A compliance report whose scanner counted one failing control, found on
two objects. -/
def compliance.twoObjects : compliance.ClusterComplianceDetailReport :=
  { objectMeta := { name := "nsa" }
    report :=
      { summary := { failCount := 1 }
        controlChecks :=
          [{ id := "1.0", name := "Non-root containers", severity := "MEDIUM"
             scannerCheckResult :=
               [{ objectType := "Pod", id := "KSV012"
                  details :=
                    [{ name := "nginx", namespace_ := "default", msg := "runs as root" },
                     { name := "redis", namespace_ := "default", msg := "runs as root" }] }] }] } }

/-- An audit report without owner reference, described by two labels only,
whose single check has the severity `NONE`. -/
def auditr.labelled : auditr.ConfigAuditReport :=
  { objectMeta :=
      { name := "pod-nginx", namespace_ := "default"
        labels :=
          ⟨[("trivy-operator.resource.kind", "Pod"), ("trivy-operator.resource.name", "nginx")]⟩ }
    report :=
      { checks :=
          [{ id := "KSV001", title := "Process can elevate its own privileges"
             description := "d1", severity := "NONE", success := false }] } }

/-- A compliance report with one detail that names no object, under a scanner
result without identifier. -/
def compliance.unnamedObject : compliance.ClusterComplianceDetailReport :=
  { objectMeta := { name := "nsa" }
    report :=
      { summary := { failCount := 1 }
        controlChecks :=
          [{ id := "2.0", name := "Audit logging", description := "Audit logs are enabled"
             severity := "HIGH"
             scannerCheckResult :=
               [{ objectType := "Node", id := ""
                  details := [{ name := "", msg := "audit log path is not set" }] }] }] } }

/-- An audit report with a check of severity `LOW` followed by a check whose
severity is not one of the recognised strings. -/
def auditr.mixedSeverities : auditr.ConfigAuditReport :=
  { objectMeta := { name := "pod-nginx", namespace_ := "default" }
    report :=
      { checks :=
          [{ id := "KSV001", title := "Process can elevate its own privileges"
             description := "d1", severity := "LOW", success := false },
           { id := "KSV003", title := "Default capabilities not dropped"
             description := "d2", severity := "bogus", success := false }] } }

/-! ## Lemmas on the loops -/

namespace auditr

theorem audit_foldl_count (checks : List Check) (s : PolicyReportSummary) :
    checks.foldl count s =
      { s with
        pass := s.pass + checks.countP (fun c => c.success)
        fail := s.fail + checks.countP (fun c => !c.success) } := by
  induction checks generalizing s with
  | nil => simp
  | cons c cs ih =>
    rw [List.foldl_cons, ih]
    cases hc : c.success <;> simp [count, hc, List.countP_cons] <;> omega

theorem audit_foldl_loopBody (report : ConfigAuditReport) (res : ObjectReference)
    (checks : List Check) (polr : PolicyReport) :
    checks.foldl (loopBody report res) polr =
      { polr with
        summary := checks.foldl count polr.summary
        results := polr.results ++ checks.map (checkResult report res) } := by
  induction checks generalizing polr with
  | nil => simp
  | cons c cs ih => rw [List.foldl_cons, ih]; simp [loopBody]

theorem audit_Map_eq (report : ConfigAuditReport) (polr : Option PolicyReport)
    (h : report.report.checks ≠ []) :
    Map report polr =
      { record := some (mapped report polr)
        updated := polr.isSome
        existing := polr.map (fun _ => mapped report polr) } := by
  have hlen : ¬ report.report.checks.length = 0 := by
    simpa [List.length_eq_zero] using h
  cases polr with
  | none =>
    simp [Map, hlen, audit_foldl_loopBody, audit_foldl_count, mapped, base, CreatePolicyReport]
  | some p =>
    simp [Map, hlen, audit_foldl_loopBody, audit_foldl_count, mapped, base]

theorem audit_Map_nil (report : ConfigAuditReport) (polr : Option PolicyReport)
    (h : report.report.checks = []) :
    Map report polr = { record := none, updated := false, existing := polr } := by
  simp [Map, h]

end auditr

theorem List.foldl_flatMap_nested {α β γ : Type} (f : γ → β → γ) (g : α → List β)
    (l : List α) (c : γ) :
    l.foldl (fun c a => (g a).foldl f c) c = (l.flatMap g).foldl f c := by
  induction l generalizing c with
  | nil => rfl
  | cons a l ih => simp [List.flatMap_cons, List.foldl_append, ih]

namespace compliance

theorem compliance_foldl_loopBody (report : ClusterComplianceDetailReport)
    (l : List (ControlCheckDetails × ScannerCheckResult × ResultDetails)) (polr : PolicyReport) :
    l.foldl (fun p x => loopBody report x.1 x.2.1 p x.2.2) polr =
      { polr with
        results := polr.results ++ l.map (fun x => detailResult report x.1 x.2.1 x.2.2) } := by
  induction l generalizing polr with
  | nil => simp
  | cons c cs ih => rw [List.foldl_cons, ih]; simp [loopBody]

theorem compliance_loops_eq (report : ClusterComplianceDetailReport) (polr : PolicyReport) :
    report.report.controlChecks.foldl
      (fun polr check =>
        check.scannerCheckResult.foldl
          (fun polr result => result.details.foldl (loopBody report check result) polr)
          polr)
      polr =
    (triples report).foldl (fun p x => loopBody report x.1 x.2.1 p x.2.2) polr := by
  unfold triples
  rw [← List.foldl_flatMap_nested]
  congr 1
  funext p check
  rw [← List.foldl_flatMap_nested]
  congr 1
  funext p result
  rw [List.foldl_map]

theorem compliance_Map_eq (report : ClusterComplianceDetailReport) (polr : Option PolicyReport) :
    Map report polr =
      { record := some (mapped report polr)
        updated := polr.isSome
        existing := polr.map (fun _ => mapped report polr) } := by
  cases polr with
  | none =>
    simp [Map, compliance_loops_eq, compliance_foldl_loopBody, mapped, base, startSummary, CreatePolicyReport]
  | some p =>
    simp [Map, compliance_loops_eq, compliance_foldl_loopBody, mapped, base, startSummary]

end compliance

namespace kubebench

theorem bench_foldl_loopBody (report : CISKubeBenchReport)
    (l : List (CISKubeBenchSection × CISKubeBenchTests × CISKubeBenchResult))
    (polr : PolicyReport) :
    l.foldl (fun p x => loopBody report x.1 x.2.1 p x.2.2) polr =
      { polr with
        summary := (l.map (fun x => x.2.2.status)).foldl count polr.summary
        results := polr.results ++ l.map (fun x => leafResult report x.1 x.2.1 x.2.2) } := by
  induction l generalizing polr with
  | nil => simp
  | cons c cs ih => rw [List.foldl_cons, ih]; simp [loopBody]

theorem bench_loops_eq (report : CISKubeBenchReport) (polr : PolicyReport) :
    report.report.sections.foldl
      (fun polr sect =>
        sect.tests.foldl
          (fun polr test => test.results.foldl (loopBody report sect test) polr)
          polr)
      polr =
    (leaves report).foldl (fun p x => loopBody report x.1 x.2.1 p x.2.2) polr := by
  unfold leaves
  rw [← List.foldl_flatMap_nested]
  congr 1
  funext p sect
  rw [← List.foldl_flatMap_nested]
  congr 1
  funext p test
  rw [List.foldl_map]

theorem bench_Map_eq (report : CISKubeBenchReport) (polr : Option PolicyReport) :
    Map report polr =
      { record := some (mapped report polr)
        updated := polr.isSome
        existing := polr.map (fun _ => mapped report polr) } := by
  cases polr with
  | none =>
    simp [Map, bench_loops_eq, bench_foldl_loopBody, mapped, base, statuses, CreatePolicyReport]
  | some p =>
    simp [Map, bench_loops_eq, bench_foldl_loopBody, mapped, base, statuses]

theorem bench_foldl_count (l : List String) (s : PolicyReportSummary) :
    l.foldl count s =
      { s with
        fail := s.fail + l.count StatusFail
        pass := s.pass + l.count StatusPass
        warn := s.warn + l.count StatusWarn
        skip := s.skip + l.count StatusInfo } := by
  induction l generalizing s with
  | nil => simp
  | cons a l ih =>
    rw [List.foldl_cons, ih]
    have hfp : StatusFail ≠ StatusPass := by decide
    have hfw : StatusFail ≠ StatusWarn := by decide
    have hfi : StatusFail ≠ StatusInfo := by decide
    have hpw : StatusPass ≠ StatusWarn := by decide
    have hpi : StatusPass ≠ StatusInfo := by decide
    have hwi : StatusWarn ≠ StatusInfo := by decide
    by_cases h1 : a = StatusFail
    · subst h1
      simp [count, List.count_cons, hfp, hfw, hfi]; omega
    · by_cases h2 : a = StatusPass
      · subst h2
        simp [count, List.count_cons, hfp.symm, hpw, hpi]; omega
      · by_cases h3 : a = StatusWarn
        · subst h3
          simp [count, List.count_cons, hfw.symm, hpw.symm, hwi]; omega
        · by_cases h4 : a = StatusInfo
          · subst h4
            simp [count, List.count_cons, hfi.symm, hpi.symm, hwi.symm]; omega
          · simp [count, List.count_cons, h1, h2, h3, h4]

end kubebench

/-! ## The upsert contract -/

/-- C1: for an audit report with zero checks, whether an existing record is
supplied or not, `auditr.Map` returns no record and `wasUpdated = false`, and
the record the caller supplied is unchanged after the call (its summary and
results are not cleared). -/
theorem auditr_Map_zero_checks (report : auditr.ConfigAuditReport)
    (polr : Option PolicyReport) (h : report.report.checks = []) :
    (auditr.Map report polr).record = none ∧
    (auditr.Map report polr).updated = false ∧
    (auditr.Map report polr).existing = polr := by
  rw [auditr.audit_Map_nil report polr h]
  exact ⟨rfl, rfl, rfl⟩

/-- C1, witness: the report without checks, once with the stale record and
once without a record. -/
theorem auditr_Map_zero_checks_witness :
    auditr.emptyReport.report.checks = [] ∧
    ((auditr.Map auditr.emptyReport (some staleRecord)).record = none ∧
      (auditr.Map auditr.emptyReport (some staleRecord)).updated = false ∧
      (auditr.Map auditr.emptyReport (some staleRecord)).existing = some staleRecord) ∧
    ((auditr.Map auditr.emptyReport none).record = none ∧
      (auditr.Map auditr.emptyReport none).updated = false ∧
      (auditr.Map auditr.emptyReport none).existing = none) :=
  ⟨rfl, auditr_Map_zero_checks auditr.emptyReport (some staleRecord) rfl,
    auditr_Map_zero_checks auditr.emptyReport none rfl⟩

/-- C2, counterexample: on the audit report without checks and the stale
record, `auditr.Map` does not return `wasUpdated = true`; it returns no record
at all, and the stale summary and results stay in the supplied record. -/
theorem Map_update_always_counterexample :
    ¬ (auditr.Map auditr.emptyReport (some staleRecord)).updated = true ∧
    (auditr.Map auditr.emptyReport (some staleRecord)).record = none ∧
    (auditr.Map auditr.emptyReport (some staleRecord)).existing = some staleRecord := by
  decide

/-- C2, amended: for each of the three mappers (for `auditr.Map`: on a report
with at least one check) and every supplied existing record, `Map` returns
`wasUpdated = true` and a record whose summary and results do not depend on the
existing record: two calls on the same report with any two existing records
`e` and `e'` return the same summary and the same results. -/
theorem Map_update_replaces (ra : auditr.ConfigAuditReport)
    (rc : compliance.ClusterComplianceDetailReport) (rb : kubebench.CISKubeBenchReport)
    (e e' : PolicyReport) (h : ra.report.checks ≠ []) :
    ((auditr.Map ra (some e)).updated = true ∧
      ∃ p p', (auditr.Map ra (some e)).record = some p ∧
        (auditr.Map ra (some e')).record = some p' ∧
        p.summary = p'.summary ∧ p.results = p'.results) ∧
    ((compliance.Map rc (some e)).updated = true ∧
      ∃ p p', (compliance.Map rc (some e)).record = some p ∧
        (compliance.Map rc (some e')).record = some p' ∧
        p.summary = p'.summary ∧ p.results = p'.results) ∧
    ((kubebench.Map rb (some e)).updated = true ∧
      ∃ p p', (kubebench.Map rb (some e)).record = some p ∧
        (kubebench.Map rb (some e')).record = some p' ∧
        p.summary = p'.summary ∧ p.results = p'.results) := by
  refine ⟨?_, ?_, ?_⟩
  · rw [auditr.audit_Map_eq ra (some e) h, auditr.audit_Map_eq ra (some e') h]
    exact ⟨rfl, _, _, rfl, rfl, rfl, rfl⟩
  · rw [compliance.compliance_Map_eq rc (some e), compliance.compliance_Map_eq rc (some e')]
    exact ⟨rfl, _, _, rfl, rfl, rfl, rfl⟩
  · rw [kubebench.bench_Map_eq rb (some e), kubebench.bench_Map_eq rb (some e')]
    exact ⟨rfl, _, _, rfl, rfl, rfl, rfl⟩

/-- C2, witness of the amended claim: the three sample reports, mapped onto
the stale record and onto an empty record. -/
theorem Map_update_replaces_witness :
    auditr.twoChecks.report.checks ≠ [] ∧
    ∃ p p', (auditr.Map auditr.twoChecks (some staleRecord)).record = some p ∧
      (auditr.Map auditr.twoChecks (some {})).record = some p' ∧
      p.summary = p'.summary ∧ p.results = p'.results :=
  ⟨by decide,
    (Map_update_replaces auditr.twoChecks compliance.oneFailure kubebench.fourLeaves
      staleRecord {} (by decide)).1.2⟩

/-- C3: with no existing record, each mapper (`auditr.Map`: on a report with at
least one check) returns `wasUpdated = false` and a record named
prefix, "-", base name. The prefix is `trivy-audit-polr`,
`trivy-compliance-cpolr` or `trivy-cis-cpolr`; the base name is the name of the
report, except that `auditr.Map` takes the name of the owner when the report has
exactly one owner reference. -/
theorem Map_create_name (ra : auditr.ConfigAuditReport)
    (rc : compliance.ClusterComplianceDetailReport) (rb : kubebench.CISKubeBenchReport)
    (h : ra.report.checks ≠ []) :
    ((auditr.Map ra none).updated = false ∧
      ∃ p, (auditr.Map ra none).record = some p ∧
        (∀ owner, ra.objectMeta.ownerReferences = [owner] →
          p.objectMeta.name = "trivy-audit-polr" ++ "-" ++ owner.name) ∧
        (ra.objectMeta.ownerReferences.length ≠ 1 →
          p.objectMeta.name = "trivy-audit-polr" ++ "-" ++ ra.objectMeta.name)) ∧
    ((compliance.Map rc none).updated = false ∧
      ∃ p, (compliance.Map rc none).record = some p ∧
        p.objectMeta.name = "trivy-compliance-cpolr" ++ "-" ++ rc.objectMeta.name) ∧
    ((kubebench.Map rb none).updated = false ∧
      ∃ p, (kubebench.Map rb none).record = some p ∧
        p.objectMeta.name = "trivy-cis-cpolr" ++ "-" ++ rb.objectMeta.name) := by
  refine ⟨?_, ?_, ?_⟩
  · rw [auditr.audit_Map_eq ra none h]
    refine ⟨rfl, _, rfl, ?_, ?_⟩
    · intro owner ho
      simp [auditr.mapped, auditr.base, auditr.CreatePolicyReport,
        auditr.GeneratePolicyReportName, ho, sprintfDash, auditr.reportPrefix]
    · intro hlen
      have hne : ∀ owner, ra.objectMeta.ownerReferences ≠ [owner] := by
        intro owner ho
        exact hlen (by rw [ho]; rfl)
      simp only [auditr.mapped, auditr.base, auditr.CreatePolicyReport,
        auditr.GeneratePolicyReportName, sprintfDash, auditr.reportPrefix]
  · rw [compliance.compliance_Map_eq rc none]
    exact ⟨rfl, _, rfl, rfl⟩
  · rw [kubebench.bench_Map_eq rb none]
    exact ⟨rfl, _, rfl, rfl⟩

/-- C3, witness: the audit report with one owner, `nginx`, is mapped to a
record named `trivy-audit-polr-nginx`. -/
theorem Map_create_name_witness :
    auditr.twoChecks.report.checks ≠ [] ∧
    (auditr.Map auditr.twoChecks none).updated = false ∧
    ∃ p, (auditr.Map auditr.twoChecks none).record = some p ∧
      p.objectMeta.name = "trivy-audit-polr-nginx" := by
  refine ⟨by decide, ?_⟩
  have key := (Map_create_name auditr.twoChecks compliance.oneFailure kubebench.fourLeaves
    (by decide)).1
  obtain ⟨hu, p, hp, hone, -⟩ := key
  exact ⟨hu, p, hp, hone _ rfl⟩

/-- Mapping an audit report onto the record of its first mapping returns the
summary and the results of the first mapping. -/
theorem audit_Map_twice (report : auditr.ConfigAuditReport) (h : report.report.checks ≠ []) :
    ∃ r1 r2, (auditr.Map report none).record = some r1 ∧
      (auditr.Map report (some r1)).record = some r2 ∧
      r2.summary = r1.summary ∧ r2.results = r1.results := by
  rw [auditr.audit_Map_eq report none h]
  refine ⟨_, auditr.mapped report (some (auditr.mapped report none)), rfl, ?_, rfl, rfl⟩
  rw [auditr.audit_Map_eq report _ h]

/-- Mapping a benchmark report onto the record of its first mapping returns
the summary and the results of the first mapping. -/
theorem bench_Map_twice (report : kubebench.CISKubeBenchReport) :
    ∃ r1 r2, (kubebench.Map report none).record = some r1 ∧
      (kubebench.Map report (some r1)).record = some r2 ∧
      r2.summary = r1.summary ∧ r2.results = r1.results := by
  rw [kubebench.bench_Map_eq report none]
  refine ⟨_, kubebench.mapped report (some (kubebench.mapped report none)), rfl, ?_, rfl, rfl⟩
  rw [kubebench.bench_Map_eq report _]

/-- Mapping a compliance report onto the record of its first mapping returns
the results of the first mapping, and a summary whose counters are all zero. -/
theorem compliance_Map_twice (report : compliance.ClusterComplianceDetailReport) :
    ∃ r1 r2, (compliance.Map report none).record = some r1 ∧
      (compliance.Map report (some r1)).record = some r2 ∧
      r2.results = r1.results ∧ r2.summary = {} ∧
      r1.summary = { fail := report.report.summary.failCount } := by
  rw [compliance.compliance_Map_eq report none]
  refine ⟨_, compliance.mapped report (some (compliance.mapped report none)), rfl, ?_,
    rfl, rfl, rfl⟩
  rw [compliance.compliance_Map_eq report _]

/-- C4: `compliance.Map` at the report `compliance.oneFailure`, whose scanner
counted one failure. The first call, without a record, returns a record `r1`
with one result and `Summary.fail = 1`; the second call, on `r1` and the same
report, returns the same single result and `Summary.fail = 0`, so the summary
of the second call differs from the one of the first. -/
theorem compliance_Map_twice_oneFailure :
    ∃ r1 r2, (compliance.Map compliance.oneFailure none).record = some r1 ∧
      (compliance.Map compliance.oneFailure (some r1)).record = some r2 ∧
      r1.results.length = 1 ∧ r2.results = r1.results ∧
      r1.summary.fail = 1 ∧ r2.summary.fail = 0 ∧ r2.summary ≠ r1.summary :=
  ⟨_, _, rfl, rfl, by decide, by decide, by decide, by decide, by decide⟩

/-- C5: for an audit report with at least one check, with or without an
existing record, the summary of the returned record has `pass` = number of
checks with `Success = true`, `fail` = number of checks with `Success = false`,
`warn = skip = 0`, hence `pass + fail` = number of checks; there is one result
per check, and the i-th result is `pass` exactly when the i-th check succeeded
and `fail` exactly when it did not. -/
theorem auditr_Map_summary (report : auditr.ConfigAuditReport) (polr : Option PolicyReport)
    (h : report.report.checks ≠ []) :
    ∃ p, (auditr.Map report polr).record = some p ∧
      p.summary.pass = report.report.checks.countP (fun c => c.success) ∧
      p.summary.fail = report.report.checks.countP (fun c => !c.success) ∧
      p.summary.warn = 0 ∧ p.summary.skip = 0 ∧
      p.summary.pass + p.summary.fail = report.report.checks.length ∧
      p.results.length = report.report.checks.length ∧
      ∀ (i : Nat) (check : auditr.Check), report.report.checks[i]? = some check →
        ∃ res, p.results[i]? = some res ∧
          (res.result = v1alpha2.StatusPass ↔ check.success = true) ∧
          (res.result = v1alpha2.StatusFail ↔ check.success = false) := by
  rw [auditr.audit_Map_eq report polr h]
  refine ⟨_, rfl, rfl, rfl, rfl, rfl, ?_, ?_, ?_⟩
  · have hsum := List.length_eq_countP_add_countP (fun c : auditr.Check => c.success)
      (l := report.report.checks)
    simp only [auditr.mapped]
    have hnot : (fun c : auditr.Check => decide ¬ c.success = true) = (fun c => !c.success) := by
      funext c; cases c.success <;> rfl
    rw [hnot] at hsum
    omega
  · simp [auditr.mapped]
  · intro i check hi
    refine ⟨auditr.checkResult report (auditr.CreateObjectReference report) check, ?_, ?_, ?_⟩
    · simp [auditr.mapped, List.getElem?_map, hi]
    · cases hs : check.success <;>
        simp [auditr.checkResult, auditr.MapResult, hs, v1alpha2.StatusPass, v1alpha2.StatusFail]
    · cases hs : check.success <;>
        simp [auditr.checkResult, auditr.MapResult, hs, v1alpha2.StatusPass, v1alpha2.StatusFail]

/-- C5, witness: the report with one passing and one failing check, mapped
onto the stale record: `pass = 1`, `fail = 1`, results `pass` then `fail`. -/
theorem auditr_Map_summary_witness :
    auditr.twoChecks.report.checks ≠ [] ∧
    ∃ p, (auditr.Map auditr.twoChecks (some staleRecord)).record = some p ∧
      p.summary.pass = 1 ∧ p.summary.fail = 1 ∧ p.summary.warn = 0 ∧ p.summary.skip = 0 ∧
      p.results.length = 2 := by
  refine ⟨by decide, ?_⟩
  obtain ⟨p, hp, h1, h2, h3, h4, -, h6, -⟩ :=
    auditr_Map_summary auditr.twoChecks (some staleRecord) (by decide)
  exact ⟨p, hp, h1, h2, h3, h4, h6⟩

/-! ## Classification of benchmark results -/

namespace kubebench

theorem MapResult_eq_fail (s : String) : MapResult s = v1alpha2.StatusFail ↔ s = StatusFail := by
  unfold MapResult
  split_ifs with h1 h2 h3 <;> simp_all [v1alpha2.StatusFail, v1alpha2.StatusPass,
    v1alpha2.StatusWarn, v1alpha2.StatusSkip]

theorem MapResult_eq_pass (s : String) : MapResult s = v1alpha2.StatusPass ↔ s = StatusPass := by
  unfold MapResult
  split_ifs with h1 h2 h3 <;> simp_all [v1alpha2.StatusFail, v1alpha2.StatusPass,
    v1alpha2.StatusWarn, v1alpha2.StatusSkip, StatusFail, StatusPass]

theorem MapResult_eq_warn (s : String) : MapResult s = v1alpha2.StatusWarn ↔ s = StatusWarn := by
  unfold MapResult
  split_ifs with h1 h2 h3 <;> simp_all [v1alpha2.StatusFail, v1alpha2.StatusPass,
    v1alpha2.StatusWarn, v1alpha2.StatusSkip, StatusFail, StatusPass, StatusWarn]

theorem MapResult_eq_skip (s : String) :
    MapResult s = v1alpha2.StatusSkip ↔ (s ≠ StatusFail ∧ s ≠ StatusPass ∧ s ≠ StatusWarn) := by
  unfold MapResult
  split_ifs with h1 h2 h3 <;> simp_all [v1alpha2.StatusFail, v1alpha2.StatusPass,
    v1alpha2.StatusWarn, v1alpha2.StatusSkip]

/-- Counting the results with a given value amounts to counting the leaf
statuses that `MapResult` sends to it. -/
theorem countP_leafResult (report : CISKubeBenchReport)
    (l : List (CISKubeBenchSection × CISKubeBenchTests × CISKubeBenchResult))
    (value : PolicyResult) :
    (l.map (fun x => leafResult report x.1 x.2.1 x.2.2)).countP
        (fun r => decide (r.result = value)) =
      (l.map (fun x => x.2.2.status)).countP (fun s => decide (MapResult s = value)) := by
  induction l with
  | nil => rfl
  | cons x l ih => simp only [List.map_cons, List.countP_cons, ih]; rfl

theorem count_eq_countP_MapResult (l : List String) (value : PolicyResult) (status : String)
    (h : ∀ s, MapResult s = value ↔ s = status) :
    l.countP (fun s => decide (MapResult s = value)) = l.count status := by
  induction l with
  | nil => rfl
  | cons a l ih =>
    by_cases ha : a = status
    · subst ha
      have hv : MapResult a = value := (h a).2 rfl
      simp [List.countP_cons, List.count_cons, ih, hv]
    · have hne : ¬ MapResult a = value := fun hv => ha ((h a).1 hv)
      simp [List.countP_cons, List.count_cons, ih, hne, ha]

theorem count_info_le (l : List String) :
    l.count StatusInfo ≤ l.countP (fun s => decide (MapResult s = v1alpha2.StatusSkip)) := by
  induction l with
  | nil => simp
  | cons a l ih =>
    by_cases ha : a = StatusInfo
    · subst ha
      have hs : MapResult StatusInfo = v1alpha2.StatusSkip := by decide
      simp [List.countP_cons, List.count_cons, hs, ih]
    · rw [List.count_cons_of_ne (fun e => ha e.symm), List.countP_cons]
      exact Nat.le_add_right_of_le ih

theorem count_info_eq (l : List String)
    (h : ∀ s ∈ l, s = StatusFail ∨ s = StatusPass ∨ s = StatusWarn ∨ s = StatusInfo) :
    l.countP (fun s => decide (MapResult s = v1alpha2.StatusSkip)) = l.count StatusInfo := by
  induction l with
  | nil => rfl
  | cons a l ih =>
    have ih' := ih (fun s hs => h s (List.mem_cons_of_mem a hs))
    rcases h a (List.mem_cons_self a l) with ha | ha | ha | ha <;> subst ha <;>
      simp only [List.countP_cons, List.count_cons, ih'] <;> rfl

end kubebench

/-- C6, counterexample: on the benchmark report whose single leaf result has
status `ERROR`, the returned record has one result with value `skip` while
`Summary.skip` is 0. -/
theorem kubebench_lockstep_counterexample :
    ∃ p, (kubebench.Map kubebench.unknownStatus none).record = some p ∧
      p.summary.skip = 0 ∧
      p.results.countP (fun r => decide (r.result = v1alpha2.StatusSkip)) = 1 ∧
      p.summary.skip ≠ p.results.countP (fun r => decide (r.result = v1alpha2.StatusSkip)) :=
  ⟨_, rfl, by decide, by decide, by decide⟩

/-- C6, amended: for every benchmark report, with arbitrary strings as leaf
statuses, and on either upsert path, `Summary.pass`, `Summary.fail` and
`Summary.warn` of the returned record equal the numbers of emitted results with
value `pass`, `fail` and `warn`. `Summary.skip` is the number of leaf results
with status `INFO`: it is at most the number of emitted results with value
`skip`, and equal to it when every leaf status is one of `FAIL`, `PASS`,
`WARN`, `INFO`. -/
theorem kubebench_Map_lockstep (report : kubebench.CISKubeBenchReport)
    (polr : Option PolicyReport) :
    ∃ p, (kubebench.Map report polr).record = some p ∧
      p.summary.pass = p.results.countP (fun r => decide (r.result = v1alpha2.StatusPass)) ∧
      p.summary.fail = p.results.countP (fun r => decide (r.result = v1alpha2.StatusFail)) ∧
      p.summary.warn = p.results.countP (fun r => decide (r.result = v1alpha2.StatusWarn)) ∧
      p.summary.skip = (kubebench.statuses report).count kubebench.StatusInfo ∧
      p.summary.skip ≤ p.results.countP (fun r => decide (r.result = v1alpha2.StatusSkip)) ∧
      ((∀ s ∈ kubebench.statuses report,
          s = kubebench.StatusFail ∨ s = kubebench.StatusPass ∨
          s = kubebench.StatusWarn ∨ s = kubebench.StatusInfo) →
        p.summary.skip =
          p.results.countP (fun r => decide (r.result = v1alpha2.StatusSkip))) := by
  rw [kubebench.bench_Map_eq report polr]
  refine ⟨_, rfl, ?_, ?_, ?_, ?_, ?_, ?_⟩
  all_goals
    simp only [kubebench.mapped, kubebench.bench_foldl_count, kubebench.countP_leafResult]
  · rw [kubebench.count_eq_countP_MapResult _ _ _ kubebench.MapResult_eq_pass]
    simp [kubebench.statuses]
  · rw [kubebench.count_eq_countP_MapResult _ _ _ kubebench.MapResult_eq_fail]
    simp [kubebench.statuses]
  · rw [kubebench.count_eq_countP_MapResult _ _ _ kubebench.MapResult_eq_warn]
    simp [kubebench.statuses]
  · simp
  · have hle := kubebench.count_info_le (kubebench.statuses report)
    simp only [kubebench.statuses] at hle ⊢
    omega
  · intro hall
    have heq := kubebench.count_info_eq (kubebench.statuses report) hall
    simp only [kubebench.statuses] at heq ⊢
    omega

/-- C6, witness of the amended claim: on the report with one leaf of each
recognised status, `Summary.skip` equals the number of `skip` results. -/
theorem kubebench_Map_lockstep_witness :
    (∀ s ∈ kubebench.statuses kubebench.fourLeaves,
      s = kubebench.StatusFail ∨ s = kubebench.StatusPass ∨
      s = kubebench.StatusWarn ∨ s = kubebench.StatusInfo) ∧
    ∃ p, (kubebench.Map kubebench.fourLeaves (some staleRecord)).record = some p ∧
      p.summary.skip = p.results.countP (fun r => decide (r.result = v1alpha2.StatusSkip)) := by
  have hall : ∀ s ∈ kubebench.statuses kubebench.fourLeaves,
      s = kubebench.StatusFail ∨ s = kubebench.StatusPass ∨
      s = kubebench.StatusWarn ∨ s = kubebench.StatusInfo := by decide
  obtain ⟨p, hp, -, -, -, -, -, hskip⟩ :=
    kubebench_Map_lockstep kubebench.fourLeaves (some staleRecord)
  exact ⟨hall, p, hp, hskip hall⟩

/-- C7: the classification of a leaf result by its raw status, compared
exactly. The switch of `Map` increments only `fail` for `FAIL`, only `pass` for
`PASS`, only `warn` for `WARN`, only `skip` for `INFO`, and nothing for any
other string, while `MapResult` emits `fail`, `pass`, `warn`, `skip` and, for
any other string, `skip`. Hence, for every report and on either upsert path,
the counters of the returned record count the leaf results of each recognised
status, their sum is the number of leaf results with a recognised status, and
the i-th result carries `MapResult` of the i-th leaf status. -/
theorem kubebench_status_table (report : kubebench.CISKubeBenchReport)
    (polr : Option PolicyReport) (summary : PolicyReportSummary) :
    (kubebench.count summary "FAIL" = { summary with fail := summary.fail + 1 } ∧
      kubebench.MapResult "FAIL" = "fail") ∧
    (kubebench.count summary "PASS" = { summary with pass := summary.pass + 1 } ∧
      kubebench.MapResult "PASS" = "pass") ∧
    (kubebench.count summary "WARN" = { summary with warn := summary.warn + 1 } ∧
      kubebench.MapResult "WARN" = "warn") ∧
    (kubebench.count summary "INFO" = { summary with skip := summary.skip + 1 } ∧
      kubebench.MapResult "INFO" = "skip") ∧
    (∀ status : String,
      status ≠ "FAIL" → status ≠ "PASS" → status ≠ "WARN" → status ≠ "INFO" →
      kubebench.count summary status = summary ∧ kubebench.MapResult status = "skip") ∧
    ∃ p, (kubebench.Map report polr).record = some p ∧
      p.summary.fail = (kubebench.statuses report).count "FAIL" ∧
      p.summary.pass = (kubebench.statuses report).count "PASS" ∧
      p.summary.warn = (kubebench.statuses report).count "WARN" ∧
      p.summary.skip = (kubebench.statuses report).count "INFO" ∧
      p.summary.pass + p.summary.fail + p.summary.warn + p.summary.skip =
        (kubebench.statuses report).countP
          (fun s => decide (s = "FAIL" ∨ s = "PASS" ∨ s = "WARN" ∨ s = "INFO")) ∧
      p.results.map (fun r => r.result) =
        (kubebench.statuses report).map kubebench.MapResult := by
  refine ⟨⟨rfl, rfl⟩, ⟨rfl, rfl⟩, ⟨rfl, rfl⟩, ⟨rfl, rfl⟩, ?_, ?_⟩
  · intro status h1 h2 h3 h4
    simp [kubebench.count, kubebench.MapResult, kubebench.StatusFail, kubebench.StatusPass,
      kubebench.StatusWarn, kubebench.StatusInfo, h1, h2, h3, h4, v1alpha2.StatusSkip]
  · rw [kubebench.bench_Map_eq report polr]
    have hsum : ∀ l : List String,
        l.count "PASS" + l.count "FAIL" + l.count "WARN" + l.count "INFO" =
          l.countP (fun s => decide (s = "FAIL" ∨ s = "PASS" ∨ s = "WARN" ∨ s = "INFO")) := by
      intro l
      induction l with
      | nil => simp
      | cons a l ih =>
        simp only [List.count_cons, List.countP_cons]
        by_cases h1 : a = "FAIL"
        · subst h1; simp at ih ⊢; omega
        · by_cases h2 : a = "PASS"
          · subst h2; simp at ih ⊢; omega
          · by_cases h3 : a = "WARN"
            · subst h3; simp at ih ⊢; omega
            · by_cases h4 : a = "INFO"
              · subst h4; simp at ih ⊢; omega
              · simp [h1, h2, h3, h4] at ih ⊢; omega
    refine ⟨_, rfl, ?_, ?_, ?_, ?_, ?_, ?_⟩
    · simp [kubebench.mapped, kubebench.bench_foldl_count, kubebench.StatusFail]
    · simp [kubebench.mapped, kubebench.bench_foldl_count, kubebench.StatusPass]
    · simp [kubebench.mapped, kubebench.bench_foldl_count, kubebench.StatusWarn]
    · simp [kubebench.mapped, kubebench.bench_foldl_count, kubebench.StatusInfo]
    · have hs := hsum (kubebench.statuses report)
      simp [kubebench.mapped, kubebench.bench_foldl_count, kubebench.StatusFail,
        kubebench.StatusPass, kubebench.StatusWarn, kubebench.StatusInfo] at hs ⊢
      omega
    · simp [kubebench.mapped, kubebench.statuses, kubebench.leafResult]

/-- C7, witness: a leaf with status `ERROR` leaves the stale summary as it is
and is emitted as `skip`. -/
theorem kubebench_status_table_witness :
    ("ERROR" : String) ≠ "FAIL" ∧ ("ERROR" : String) ≠ "PASS" ∧
    ("ERROR" : String) ≠ "WARN" ∧ ("ERROR" : String) ≠ "INFO" ∧
    kubebench.count staleRecord.summary "ERROR" = staleRecord.summary ∧
    kubebench.MapResult "ERROR" = "skip" :=
  ⟨by decide, by decide, by decide, by decide,
    (kubebench_status_table kubebench.unknownStatus none staleRecord.summary).2.2.2.2.1
      "ERROR" (by decide) (by decide) (by decide) (by decide)⟩

/-! ## The keys of the indexed message properties -/

theorem digitVal_digitChar (d : Nat) (h : d < 10) : digitVal (Nat.digitChar d) = d := by
  interval_cases d <;> rfl

theorem decodeDigits_append_singleton (l : List Char) (c : Char) :
    decodeDigits (l ++ [c]) = decodeDigits l * 10 + digitVal c := by
  simp [decodeDigits, List.foldl_append]

theorem toDigitsCore_decode (fuel : Nat) :
    ∀ (n : Nat) (ds : List Char), n < fuel →
      ∃ l, Nat.toDigitsCore 10 fuel n ds = l ++ ds ∧ decodeDigits l = n := by
  induction fuel with
  | zero => intro n ds h; omega
  | succ fuel ih =>
    intro n ds h
    unfold Nat.toDigitsCore
    by_cases h0 : n / 10 = 0
    · refine ⟨[Nat.digitChar (n % 10)], ?_, ?_⟩
      · simp [h0]
      · have hd := digitVal_digitChar (n % 10) (Nat.mod_lt _ (by decide))
        simp only [decodeDigits, List.foldl_cons, List.foldl_nil, hd]
        omega
    · obtain ⟨l, hl, hdec⟩ := ih (n / 10) (Nat.digitChar (n % 10) :: ds) (by omega)
      refine ⟨l ++ [Nat.digitChar (n % 10)], ?_, ?_⟩
      · simp [h0, hl]
      · rw [decodeDigits_append_singleton, hdec,
          digitVal_digitChar (n % 10) (Nat.mod_lt _ (by decide))]
        omega

theorem decodeDigits_repr (n : Nat) : decodeDigits (Nat.repr n).data = n := by
  obtain ⟨l, hl, hdec⟩ := toDigitsCore_decode (n + 1) n [] (by omega)
  have : (Nat.repr n).data = l := by
    simp [Nat.repr, Nat.toDigits, hl, List.asString]
  rw [this, hdec]

theorem sprintfMessage_injective (i j : Nat) (h : sprintfMessage i = sprintfMessage j) :
    i = j := by
  have hdata : (Nat.repr i).data ++ ". message".data = (Nat.repr j).data ++ ". message".data := by
    have := congrArg String.data h
    simpa [sprintfMessage, String.data_append] using this
  have hrepr := List.append_cancel_right hdata
  have := congrArg decodeDigits hrepr
  simpa [decodeDigits_repr] using this

theorem sprintfMessage_ne_description (i : Nat) : sprintfMessage i ≠ "description" := by
  intro h
  have hdata := congrArg (fun s : String => s.data.reverse.head?) h
  simp [sprintfMessage, String.data_append, List.reverse_append] at hdata

theorem setEntries_of_not_mem (l : List (String × String)) (k v : String)
    (h : k ∉ l.map Prod.fst) : StrMap.setEntries l k v = l ++ [(k, v)] := by
  induction l with
  | nil => rfl
  | cons e l ih =>
    obtain ⟨k', v'⟩ := e
    have hne : ¬ k' = k := fun hk => h (by simp [hk])
    have hl : k ∉ l.map Prod.fst := fun hk => h (by simp at hk ⊢; exact Or.inr hk)
    simp [StrMap.setEntries, hne, ih hl]

theorem get?_of_mem (l : List (String × String)) (k v : String)
    (hn : (l.map Prod.fst).Nodup) (h : (k, v) ∈ l) : StrMap.get? ⟨l⟩ k = some v := by
  induction l with
  | nil => simp at h
  | cons e l ih =>
    obtain ⟨k', v'⟩ := e
    rw [List.map_cons, List.nodup_cons] at hn
    rcases List.mem_cons.1 h with heq | hmem
    · cases heq
      simp [StrMap.get?]
    · have hne : ¬ k' = k := by
        intro hk
        subst hk
        exact hn.1 (List.mem_map.2 ⟨(k', v), hmem, rfl⟩)
      have := ih hn.2 hmem
      simpa [StrMap.get?, hne] using this

theorem get?_of_not_mem (l : List (String × String)) (k : String)
    (h : k ∉ l.map Prod.fst) : StrMap.get? ⟨l⟩ k = none := by
  induction l with
  | nil => rfl
  | cons e l ih =>
    obtain ⟨k', v'⟩ := e
    have hne : ¬ k' = k := fun hk => h (by simp [hk])
    have hl : k ∉ l.map Prod.fst := fun hk => h (by simp at hk ⊢; exact Or.inr hk)
    have := ih hl
    simpa [StrMap.get?, hne] using this

namespace auditr

theorem foldl_set_enumFrom (ms : List String) :
    ∀ (n : Nat) (props : StrMap),
      (∀ k ∈ props.keys, ∃ j, j < n ∧ k = sprintfMessage j) →
      (ms.enumFrom n).foldl (fun props im => props.set (sprintfMessage im.1) im.2) props =
        ⟨props.entries ++ (ms.enumFrom n).map (fun im => (sprintfMessage im.1, im.2))⟩ := by
  induction ms with
  | nil => intro n props _; simp
  | cons m ms ih =>
    intro n props hk
    have hnew : sprintfMessage n ∉ props.entries.map Prod.fst := by
      intro hmem
      obtain ⟨j, hj, hkey⟩ := hk _ hmem
      have := sprintfMessage_injective _ _ hkey
      omega
    have hset : props.set (sprintfMessage n) m = ⟨props.entries ++ [(sprintfMessage n, m)]⟩ := by
      simp [StrMap.set, setEntries_of_not_mem _ _ _ hnew]
    rw [List.enumFrom_cons, List.foldl_cons, hset, ih (n + 1)]
    · simp
    · intro k hmem
      simp only [StrMap.keys, List.map_append, List.map_cons, List.map_nil, List.mem_append,
        List.mem_singleton] at hmem
      rcases hmem with hmem | hmem
      · obtain ⟨j, hj, hkey⟩ := hk k hmem
        exact ⟨j, by omega, hkey⟩
      · exact ⟨n, by omega, hmem⟩

theorem indexedProps_entries (ms : List String) :
    (indexedProps ms).entries = ms.enum.map (fun im => (sprintfMessage im.1, im.2)) := by
  unfold indexedProps
  rw [List.enum_eq_enumFrom, foldl_set_enumFrom ms 0 StrMap.empty]
  · simp [StrMap.empty]
  · intro k hk
    simp [StrMap.keys, StrMap.empty] at hk

theorem indexedProps_keys (ms : List String) :
    (indexedProps ms).keys = (List.range ms.length).map sprintfMessage := by
  rw [StrMap.keys, indexedProps_entries, ← List.enum_map_fst, List.map_map, List.map_map]
  rfl

theorem indexedProps_keys_nodup (ms : List String) : (indexedProps ms).keys.Nodup := by
  rw [indexedProps_keys]
  exact List.Nodup.map (fun i j h => sprintfMessage_injective i j h) (List.nodup_range _)

theorem indexedProps_get? (ms : List String) (j : Nat) (m : String) (h : ms[j]? = some m) :
    (indexedProps ms).get? (sprintfMessage j) = some m := by
  have hmem : (sprintfMessage j, m) ∈ (indexedProps ms).entries := by
    rw [indexedProps_entries]
    exact List.mem_map.2 ⟨(j, m), List.mk_mem_enum_iff_getElem?.2 h, rfl⟩
  exact get?_of_mem _ _ _ (indexedProps_keys_nodup ms) hmem

theorem indexedProps_get?_description (ms : List String) :
    (indexedProps ms).get? "description" = none := by
  apply get?_of_not_mem
  intro hmem
  have hkeys : "description" ∈ (indexedProps ms).keys := hmem
  rw [indexedProps_keys] at hkeys
  obtain ⟨i, -, hi⟩ := List.mem_map.1 hkeys
  exact sprintfMessage_ne_description i hi

theorem messageAndProps_one (check : Check) (m : String)
    (h : check.messages.filter (fun m => decide (m ≠ "")) = [m]) :
    messageAndProps check = (m, ⟨[("description", check.description)]⟩) := by
  unfold messageAndProps nonEmptyMessages
  rw [h]
  rfl

theorem messageAndProps_other (check : Check)
    (h : (check.messages.filter (fun m => decide (m ≠ ""))).length ≠ 1) :
    messageAndProps check =
      (check.description, indexedProps (check.messages.filter (fun m => decide (m ≠ "")))) := by
  unfold messageAndProps nonEmptyMessages
  split
  · next m hm => rw [hm] at h; exact absurd rfl h
  · rfl

end auditr

/-! ## Results and summary of the compliance mapper -/

/-- C8: for every compliance report, with or without an existing record,
every emitted result has value `fail`, and the results are, in the order of
the three nested loops, one per (control check, scanner result, detail) entry:
the i-th result is built from the i-th entry (policy = name of the check,
rule = id of the scanner result, message = message of the detail). Without an
existing record the summary is `fail` = the `FailCount` supplied by the report
and `pass = warn = skip = 0`, whatever the detail entries are. -/
theorem compliance_Map_results (report : compliance.ClusterComplianceDetailReport)
    (polr : Option PolicyReport) :
    (∃ p, (compliance.Map report polr).record = some p ∧
      (∀ r ∈ p.results, r.result = v1alpha2.StatusFail) ∧
      p.results.length = (compliance.triples report).length ∧
      p.results =
        (compliance.triples report).map
          (fun x => compliance.detailResult report x.1 x.2.1 x.2.2) ∧
      p.results.map (fun r => (r.policy, r.rule, r.message)) =
        (compliance.triples report).map (fun x => (x.1.name, x.2.1.id, x.2.2.msg))) ∧
    (∃ p, (compliance.Map report none).record = some p ∧
      p.summary.fail = report.report.summary.failCount ∧
      p.summary.pass = 0 ∧ p.summary.warn = 0 ∧ p.summary.skip = 0 ∧
      p.summary = { fail := report.report.summary.failCount }) := by
  constructor
  · rw [compliance.compliance_Map_eq report polr]
    refine ⟨_, rfl, ?_, ?_, rfl, ?_⟩
    · intro r hr
      simp only [compliance.mapped, List.mem_map] at hr
      obtain ⟨x, -, rfl⟩ := hr
      rfl
    · simp [compliance.mapped]
    · simp [compliance.mapped, compliance.detailResult]
  · rw [compliance.compliance_Map_eq report none]
    exact ⟨_, rfl, rfl, rfl, rfl, rfl, rfl⟩

/-- C8, witness: the report with two detail entries under one scanner result,
mapped onto the stale record, gives two results, both `fail`. -/
theorem compliance_Map_results_witness :
    ∃ p, (compliance.Map compliance.twoObjects (some staleRecord)).record = some p ∧
      (∀ r ∈ p.results, r.result = v1alpha2.StatusFail) ∧
      p.results.length = 2 := by
  obtain ⟨p, hp, hfail, hlen, -⟩ :=
    (compliance_Map_results compliance.twoObjects (some staleRecord)).1
  exact ⟨p, hp, hfail, by rw [hlen]; decide⟩

/-- C9, counterexample: the compliance report with `FailCount = 1` and two
detail entries is mapped, without an existing record, to a record with two
results and `Summary.fail = 1`: the summary is not the count of the emitted
results. -/
theorem compliance_summary_counterexample :
    ∃ p, (compliance.Map compliance.twoObjects none).record = some p ∧
      p.results.length = 2 ∧ p.summary.fail = 1 ∧
      p.summary.fail ≠ p.results.length :=
  ⟨_, rfl, by decide, by decide, by decide⟩

/-- C9, amended: after every mapping pass of the compliance mapper, with or
without an existing record, one result with value `fail` has been emitted per
(check, result, detail) entry of the report and `pass = warn = skip = 0` in the
summary; when a fresh record is created, `Summary.fail` is the aggregate
`FailCount` supplied by the report, not the number of emitted results. -/
theorem compliance_Map_summary (report : compliance.ClusterComplianceDetailReport)
    (polr : Option PolicyReport) :
    (∃ p, (compliance.Map report polr).record = some p ∧
      p.summary.pass = 0 ∧ p.summary.warn = 0 ∧ p.summary.skip = 0 ∧
      p.results.length = (compliance.triples report).length ∧
      p.results.countP (fun r => decide (r.result = v1alpha2.StatusFail)) =
        (compliance.triples report).length) ∧
    (∃ p, (compliance.Map report none).record = some p ∧
      p.summary.fail = report.report.summary.failCount) := by
  constructor
  · rw [compliance.compliance_Map_eq report polr]
    refine ⟨_, rfl, ?_, ?_, ?_, ?_, ?_⟩
    · cases polr <;> rfl
    · cases polr <;> rfl
    · cases polr <;> rfl
    · simp [compliance.mapped]
    · simp only [compliance.mapped, List.countP_map]
      rw [List.countP_eq_length.2]
      intro x _
      simp [compliance.detailResult]
  · rw [compliance.compliance_Map_eq report none]
    exact ⟨_, rfl, rfl⟩

/-- C9, witness of the amended claim: the report with `FailCount = 1` and two
detail entries is mapped to a fresh record with `Summary.fail = 1`. -/
theorem compliance_Map_summary_witness :
    ∃ p, (compliance.Map compliance.twoObjects none).record = some p ∧
      p.summary.fail = 1 :=
  (compliance_Map_summary compliance.twoObjects none).2

/-! ## Message and properties of the audit results -/

/-- C10: for every check of an audit report that is mapped (the report has at
least one check; with or without an existing record), let `ms` be the messages
of the check without the empty ones, in order. If `ms` is a single message,
the message of the result is that message and its properties are exactly
`description` -> description of the check. Otherwise the message of the result
is the description of the check and its properties are exactly the entries
`<j>. message` -> `ms[j]` for `j` below the length of `ms`: as many entries as
messages, under pairwise different keys, none of them `description`. -/
theorem auditr_Map_message_rule (report : auditr.ConfigAuditReport)
    (polr : Option PolicyReport) (h : report.report.checks ≠ []) :
    ∃ p, (auditr.Map report polr).record = some p ∧
      ∀ (i : Nat) (check : auditr.Check) (ms : List String),
        report.report.checks[i]? = some check →
        ms = check.messages.filter (fun m => decide (m ≠ "")) →
        ∃ res, p.results[i]? = some res ∧
          (∀ m, ms = [m] →
            res.message = m ∧
            res.properties.entries = [("description", check.description)]) ∧
          (ms.length ≠ 1 →
            res.message = check.description ∧
            res.properties.entries =
              ms.enum.map (fun jm => (Nat.repr jm.1 ++ ". message", jm.2)) ∧
            res.properties.keys.Nodup ∧
            res.properties.size = ms.length ∧
            (∀ (j : Nat) (m : String), ms[j]? = some m →
              res.properties.get? (Nat.repr j ++ ". message") = some m) ∧
            res.properties.get? "description" = none) := by
  rw [auditr.audit_Map_eq report polr h]
  refine ⟨_, rfl, ?_⟩
  intro i check ms hi hms
  refine ⟨auditr.checkResult report (auditr.CreateObjectReference report) check, ?_, ?_, ?_⟩
  · simp [auditr.mapped, List.getElem?_map, hi]
  · intro m hm
    rw [hms] at hm
    simp [auditr.checkResult, auditr.messageAndProps_one check m hm]
  · intro hlen
    rw [hms] at hlen
    have hmp := auditr.messageAndProps_other check hlen
    rw [← hms] at hmp
    simp only [auditr.checkResult, hmp]
    refine ⟨trivial, ?_, auditr.indexedProps_keys_nodup ms, ?_, ?_,
      auditr.indexedProps_get?_description ms⟩
    · rw [auditr.indexedProps_entries]
      rfl
    · simp [StrMap.size, auditr.indexedProps_entries]
    · intro j m hj
      exact auditr.indexedProps_get? ms j m hj

/-- C10, witness: the report with a passing check without messages and a
failing check with two messages is mapped to `Summary{pass: 1, fail: 1}` and
two results: the first has the description of its check as message and no
property, the second has the description of its check as message and the two
indexed message properties. -/
theorem auditr_Map_message_rule_witness :
    auditr.twoChecks.report.checks ≠ [] ∧
    ∃ p, (auditr.Map auditr.twoChecks none).record = some p ∧
      p.summary = { pass := 1, fail := 1 } ∧
      p.results.map (fun r => (r.result, r.message, r.properties.entries)) =
        [("pass", "d1", []),
         ("fail", "d2", [("0. message", "container a"), ("1. message", "container b")])] := by
  refine ⟨by decide, ?_⟩
  obtain ⟨p, hp, -⟩ := auditr_Map_message_rule auditr.twoChecks none (by decide)
  refine ⟨p, hp, ?_, ?_⟩
  · have hrec : (auditr.Map auditr.twoChecks none).record.map (fun q => q.summary) =
        some { pass := 1, fail := 1 } := by decide
    rw [hp] at hrec
    simpa using hrec
  · have hrec : (auditr.Map auditr.twoChecks none).record.map
        (fun q => q.results.map (fun r => (r.result, r.message, r.properties.entries))) =
        some [("pass", "d1", []),
          ("fail", "d2", [("0. message", "container a"), ("1. message", "container b")])] := by
      decide
    rw [hp] at hrec
    simpa using hrec

/-! ## Resource references -/

/-- C11: every result of a mapped audit report (at least one check, with or
without an existing record) carries exactly one resource reference, the same
for all results of the call. With exactly one owner reference it is the
namespace of the report with the API version, kind, name and UID of that
owner. Otherwise it is the namespace, kind and name read from the labels
`trivy-operator.resource.namespace`, `.kind` and `.name`, with empty API
version and UID; a label that is absent reads as the empty string, and so do
all three when the report has no labels. -/
theorem auditr_Map_resources (report : auditr.ConfigAuditReport)
    (polr : Option PolicyReport) (h : report.report.checks ≠ []) :
    ∃ p, (auditr.Map report polr).record = some p ∧
      ∃ ref : ObjectReference,
        (∀ r ∈ p.results, r.resources = [ref]) ∧
        (∀ owner, report.objectMeta.ownerReferences = [owner] →
          ref =
            { namespace_ := report.objectMeta.namespace_
              apiVersion := owner.apiVersion
              kind := owner.kind
              name := owner.name
              uid := owner.uid }) ∧
        (report.objectMeta.ownerReferences.length ≠ 1 →
          ref.namespace_ = report.objectMeta.labels.get "trivy-operator.resource.namespace" ∧
          ref.kind = report.objectMeta.labels.get "trivy-operator.resource.kind" ∧
          ref.name = report.objectMeta.labels.get "trivy-operator.resource.name" ∧
          ref.apiVersion = "" ∧ ref.uid = "" ∧
          ref.resourceVersion = "" ∧ ref.fieldPath = "" ∧
          (∀ label, report.objectMeta.labels.get? label = none →
            report.objectMeta.labels.get label = "") ∧
          (report.objectMeta.labels = StrMap.empty → ref = {})) := by
  rw [auditr.audit_Map_eq report polr h]
  refine ⟨_, rfl, auditr.CreateObjectReference report, ?_, ?_, ?_⟩
  · intro r hr
    simp only [auditr.mapped, List.mem_map] at hr
    obtain ⟨c, -, rfl⟩ := hr
    rfl
  · intro owner ho
    simp [auditr.CreateObjectReference, ho]
  · intro hlen
    have hne : ∀ owner, report.objectMeta.ownerReferences ≠ [owner] := by
      intro owner ho
      exact hlen (by rw [ho]; rfl)
    have href : auditr.CreateObjectReference report =
        { namespace_ := report.objectMeta.labels.get auditr.namespaceLabel
          kind := report.objectMeta.labels.get auditr.kindLabel
          name := report.objectMeta.labels.get auditr.nameLabel } := by
      unfold auditr.CreateObjectReference
      split
      · next ref hr => exact absurd hr (hne ref)
      · rfl
    rw [href]
    refine ⟨rfl, rfl, rfl, rfl, rfl, rfl, rfl, ?_, ?_⟩
    · intro label hl
      simp [StrMap.get, hl]
    · intro hlab
      rw [hlab]
      rfl

/-- C11, witness: the report without owner reference and with the labels
`.kind = Pod` and `.name = nginx` gives every result the single reference
`Pod nginx` with an empty namespace. -/
theorem auditr_Map_resources_witness :
    auditr.labelled.report.checks ≠ [] ∧
    auditr.labelled.objectMeta.ownerReferences.length ≠ 1 ∧
    ∃ p, (auditr.Map auditr.labelled none).record = some p ∧
      ∀ r ∈ p.results, r.resources = [{ kind := "Pod", name := "nginx", namespace_ := "" }] := by
  refine ⟨by decide, by decide, ?_⟩
  obtain ⟨p, hp, ref, hall, -, hlab⟩ := auditr_Map_resources auditr.labelled none (by decide)
  obtain ⟨h1, h2, h3, h4, h5, h6, h7, -⟩ := hlab (by decide)
  have href : ref = { kind := "Pod", name := "nginx", namespace_ := "" } := by
    cases ref
    simp only [ObjectReference.mk.injEq] at *
    subst h1 h2 h3 h4 h5 h6 h7
    decide
  rw [← href]
  exact ⟨p, hp, hall⟩

/-- The result built for a detail entry that names an object. -/
theorem detailResult_named (report : compliance.ClusterComplianceDetailReport)
    (check : compliance.ControlCheckDetails) (result : compliance.ScannerCheckResult)
    (details : compliance.ResultDetails) (h : details.name ≠ "") :
    (compliance.detailResult report check result details).resources =
        [{ kind := result.objectType, name := details.name, namespace_ := details.namespace_ }] ∧
      (compliance.detailResult report check result details).properties.entries =
        if result.id ≠ "" then [("Description", check.description), ("id", result.id)]
        else [("Description", check.description)] := by
  by_cases hid : result.id = "" <;>
    simp [compliance.detailResult, compliance.resourcesAndProps, h, hid, StrMap.set,
      StrMap.setEntries, StrMap.empty]

/-- The result built for a detail entry that names no object. -/
theorem detailResult_unnamed (report : compliance.ClusterComplianceDetailReport)
    (check : compliance.ControlCheckDetails) (result : compliance.ScannerCheckResult)
    (details : compliance.ResultDetails) (h : details.name = "") :
    (compliance.detailResult report check result details).resources = [] ∧
      (compliance.detailResult report check result details).properties.entries =
        if result.id ≠ "" then
          [("Description", check.description), ("objectType", result.objectType),
            ("id", result.id)]
        else [("Description", check.description), ("objectType", result.objectType)] := by
  by_cases hid : result.id = "" <;>
    simp [compliance.detailResult, compliance.resourcesAndProps, h, hid, StrMap.set,
      StrMap.setEntries, StrMap.empty]

/-- C12: for every (check, result, detail) entry of a compliance report, on
either upsert path, the result emitted for it satisfies: if the detail has a
name, its only resource reference is kind = object type of the scanner result,
name and namespace = those of the detail, and it has no `objectType` property;
if the detail has no name, it has no resource reference and the property
`objectType` = object type of the scanner result. The property `id` is the
identifier of the scanner result when that is not empty and is absent when it
is empty; the property `Description` is always the description of the check;
the keys are pairwise different and no key other than `Description`,
`objectType` and `id` occurs. -/
theorem compliance_Map_references (report : compliance.ClusterComplianceDetailReport)
    (polr : Option PolicyReport) :
    ∃ p, (compliance.Map report polr).record = some p ∧
      ∀ (i : Nat) (check : compliance.ControlCheckDetails)
        (result : compliance.ScannerCheckResult) (details : compliance.ResultDetails),
        (compliance.triples report)[i]? = some (check, result, details) →
        ∃ res, p.results[i]? = some res ∧
          (details.name ≠ "" →
            res.resources =
              [{ kind := result.objectType, name := details.name
                 namespace_ := details.namespace_ }] ∧
            res.properties.get? "objectType" = none) ∧
          (details.name = "" →
            res.resources = [] ∧
            res.properties.get? "objectType" = some result.objectType) ∧
          (result.id ≠ "" → res.properties.get? "id" = some result.id) ∧
          (result.id = "" → res.properties.get? "id" = none) ∧
          res.properties.get? "Description" = some check.description ∧
          res.properties.keys.Nodup ∧
          (∀ k ∈ res.properties.keys, k = "Description" ∨ k = "objectType" ∨ k = "id") := by
  rw [compliance.compliance_Map_eq report polr]
  refine ⟨_, rfl, ?_⟩
  intro i check result details hi
  refine ⟨compliance.detailResult report check result details, ?_, ?_⟩
  · simp [compliance.mapped, List.getElem?_map, hi]
  · by_cases hname : details.name = "" <;> by_cases hid : result.id = ""
    · obtain ⟨hres, hprops⟩ := detailResult_unnamed report check result details hname
      simp [hres, hprops, hname, hid, StrMap.get?, StrMap.keys]
    · obtain ⟨hres, hprops⟩ := detailResult_unnamed report check result details hname
      simp [hres, hprops, hname, hid, StrMap.get?, StrMap.keys]
    · obtain ⟨hres, hprops⟩ := detailResult_named report check result details hname
      simp [hres, hprops, hname, hid, StrMap.get?, StrMap.keys]
    · obtain ⟨hres, hprops⟩ := detailResult_named report check result details hname
      simp [hres, hprops, hname, hid, StrMap.get?, StrMap.keys]

/-- C12, witness: the detail without name under a scanner result without
identifier yields no resource reference, the property `objectType = Node` and
no property `id`; the detail named `nginx` under the scanner result `KSV012`
yields the reference `Pod default/nginx` and the property `id = KSV012`. -/
theorem compliance_Map_references_witness :
    (∃ p res, (compliance.Map compliance.unnamedObject none).record = some p ∧
      p.results[0]? = some res ∧ res.resources = [] ∧
      res.properties.get? "objectType" = some "Node" ∧
      res.properties.get? "id" = none) ∧
    (∃ p res, (compliance.Map compliance.twoObjects none).record = some p ∧
      p.results[0]? = some res ∧
      res.resources = [{ kind := "Pod", name := "nginx", namespace_ := "default" }] ∧
      res.properties.get? "objectType" = none ∧
      res.properties.get? "id" = some "KSV012") := by
  constructor
  · obtain ⟨p, hp, hall⟩ := compliance_Map_references compliance.unnamedObject none
    obtain ⟨res, hres, -, hunnamed, -, hnoid, -⟩ :=
      hall 0 _ _ _ (by decide :
        (compliance.triples compliance.unnamedObject)[0]? =
          some ({ id := "2.0", name := "Audit logging", description := "Audit logs are enabled"
                  severity := "HIGH"
                  scannerCheckResult :=
                    [{ objectType := "Node", id := ""
                       details := [{ name := "", msg := "audit log path is not set" }] }] },
                { objectType := "Node", id := ""
                  details := [{ name := "", msg := "audit log path is not set" }] },
                { name := "", msg := "audit log path is not set" }))
    exact ⟨p, res, hp, hres, (hunnamed rfl).1, (hunnamed rfl).2, hnoid rfl⟩
  · obtain ⟨p, hp, hall⟩ := compliance_Map_references compliance.twoObjects none
    obtain ⟨res, hres, hnamed, -, hid, -⟩ :=
      hall 0 _ _ _ (by decide :
        (compliance.triples compliance.twoObjects)[0]? =
          some ({ id := "1.0", name := "Non-root containers", severity := "MEDIUM"
                  scannerCheckResult :=
                    [{ objectType := "Pod", id := "KSV012"
                       details :=
                         [{ name := "nginx", namespace_ := "default", msg := "runs as root" },
                          { name := "redis", namespace_ := "default", msg := "runs as root" }] }] },
                { objectType := "Pod", id := "KSV012"
                  details :=
                    [{ name := "nginx", namespace_ := "default", msg := "runs as root" },
                     { name := "redis", namespace_ := "default", msg := "runs as root" }] },
                { name := "nginx", namespace_ := "default", msg := "runs as root" }))
    exact ⟨p, res, hp, hres, (hnamed (by decide)).1, (hnamed (by decide)).2, hid (by decide)⟩

/-! ## Identity of the target record -/

/-- C13: when `Map` is called with an existing record, the identity metadata
of the returned record (type, name, namespace, labels, owner references and
the rest of the object metadata) is that of the supplied record, for each of
the three mappers: only the summary and the results are written. The audit
mapper returns a record when the report has a check; when it has none, the
supplied record stays as it was, metadata included. -/
theorem Map_update_frame (ra : auditr.ConfigAuditReport)
    (rc : compliance.ClusterComplianceDetailReport) (rb : kubebench.CISKubeBenchReport)
    (e : PolicyReport) :
    ((∀ p, (auditr.Map ra (some e)).record = some p →
        p.typeMeta = e.typeMeta ∧ p.objectMeta = e.objectMeta ∧
        p.objectMeta.name = e.objectMeta.name ∧
        p.objectMeta.namespace_ = e.objectMeta.namespace_ ∧
        p.objectMeta.labels = e.objectMeta.labels ∧
        p.objectMeta.ownerReferences = e.objectMeta.ownerReferences) ∧
      (∃ q, (auditr.Map ra (some e)).existing = some q ∧
        q.typeMeta = e.typeMeta ∧ q.objectMeta = e.objectMeta) ∧
      (ra.report.checks ≠ [] → ∃ p, (auditr.Map ra (some e)).record = some p ∧
        (auditr.Map ra (some e)).existing = some p)) ∧
    (∃ p, (compliance.Map rc (some e)).record = some p ∧
      (compliance.Map rc (some e)).existing = some p ∧
      p.typeMeta = e.typeMeta ∧ p.objectMeta = e.objectMeta ∧
      p.objectMeta.name = e.objectMeta.name ∧
      p.objectMeta.namespace_ = e.objectMeta.namespace_ ∧
      p.objectMeta.labels = e.objectMeta.labels ∧
      p.objectMeta.ownerReferences = e.objectMeta.ownerReferences) ∧
    (∃ p, (kubebench.Map rb (some e)).record = some p ∧
      (kubebench.Map rb (some e)).existing = some p ∧
      p.typeMeta = e.typeMeta ∧ p.objectMeta = e.objectMeta ∧
      p.objectMeta.name = e.objectMeta.name ∧
      p.objectMeta.namespace_ = e.objectMeta.namespace_ ∧
      p.objectMeta.labels = e.objectMeta.labels ∧
      p.objectMeta.ownerReferences = e.objectMeta.ownerReferences) := by
  refine ⟨?_, ?_, ?_⟩
  · by_cases h : ra.report.checks = []
    · rw [auditr.audit_Map_nil ra (some e) h]
      refine ⟨?_, ⟨e, rfl, rfl, rfl⟩, fun hne => absurd h hne⟩
      intro p hp
      cases hp
    · rw [auditr.audit_Map_eq ra (some e) h]
      refine ⟨?_, ⟨_, rfl, rfl, rfl⟩, fun _ => ⟨_, rfl, rfl⟩⟩
      intro p hp
      cases hp
      exact ⟨rfl, rfl, rfl, rfl, rfl, rfl⟩
  · rw [compliance.compliance_Map_eq rc (some e)]
    exact ⟨_, rfl, rfl, rfl, rfl, rfl, rfl, rfl, rfl⟩
  · rw [kubebench.bench_Map_eq rb (some e)]
    exact ⟨_, rfl, rfl, rfl, rfl, rfl, rfl, rfl, rfl⟩

/-- C13, witness: the audit report with two checks, mapped onto the stale
record, returns a record that keeps the name and the namespace of the stale
record. -/
theorem Map_update_frame_witness :
    auditr.twoChecks.report.checks ≠ [] ∧
    ∃ p, (auditr.Map auditr.twoChecks (some staleRecord)).record = some p ∧
      p.objectMeta.name = "trivy-audit-polr-nginx" ∧ p.objectMeta.namespace_ = "default" := by
  refine ⟨by decide, ?_⟩
  obtain ⟨hall, -, hex⟩ :=
    (Map_update_frame auditr.twoChecks compliance.oneFailure kubebench.fourLeaves staleRecord).1
  obtain ⟨p, hp, -⟩ := hex (by decide)
  obtain ⟨-, -, hname, hns, -⟩ := hall p hp
  exact ⟨p, hp, by rw [hname]; rfl, by rw [hns]; rfl⟩

/-- C16: without an existing record, (a) the compliance and the benchmark
mapper each return a record with exactly one owner reference, made of the API
version, kind, name and UID of the source report; (b) the audit mapper, on a
report with at least one check, returns a record with the owner references and
the namespace of the source report; (c) the labels of the record are the fixed
pair of the mapper, whatever the report contains. -/
theorem Map_create_owner_labels (ra : auditr.ConfigAuditReport)
    (rc : compliance.ClusterComplianceDetailReport) (rb : kubebench.CISKubeBenchReport)
    (h : ra.report.checks ≠ []) :
    (∃ p, (auditr.Map ra none).record = some p ∧
      p.objectMeta.ownerReferences = ra.objectMeta.ownerReferences ∧
      p.objectMeta.namespace_ = ra.objectMeta.namespace_ ∧
      p.objectMeta.labels.entries =
        [("app.kubernetes.io/created-by", "trivy-operator-polr-adapter"),
          ("trivy-operator.source", "ConfigAuditReport")]) ∧
    (∃ p, (compliance.Map rc none).record = some p ∧
      p.objectMeta.ownerReferences =
        [{ apiVersion := rc.typeMeta.apiVersion, kind := rc.typeMeta.kind
           name := rc.objectMeta.name, uid := rc.objectMeta.uid }] ∧
      p.objectMeta.labels.entries =
        [("app.kubernetes.io/created-by", "trivy-operator-polr-adapter"),
          ("trivy-operator.source", "ClusterComplianceDetailReport")]) ∧
    (∃ p, (kubebench.Map rb none).record = some p ∧
      p.objectMeta.ownerReferences =
        [{ apiVersion := rb.typeMeta.apiVersion, kind := rb.typeMeta.kind
           name := rb.objectMeta.name, uid := rb.objectMeta.uid }] ∧
      p.objectMeta.labels.entries =
        [("managed-by", "trivy-operator-polr-adapter"),
          ("trivy-operator.source", "CISKubeBenchReport")]) := by
  refine ⟨?_, ?_, ?_⟩
  · rw [auditr.audit_Map_eq ra none h]
    exact ⟨_, rfl, rfl, rfl, rfl⟩
  · rw [compliance.compliance_Map_eq rc none]
    exact ⟨_, rfl, rfl, rfl⟩
  · rw [kubebench.bench_Map_eq rb none]
    exact ⟨_, rfl, rfl, rfl⟩

/-- C16, witness: the audit report owned by the replica set `nginx` is mapped
to a fresh record owned by that replica set, in the namespace `default`. -/
theorem Map_create_owner_labels_witness :
    auditr.twoChecks.report.checks ≠ [] ∧
    ∃ p, (auditr.Map auditr.twoChecks none).record = some p ∧
      p.objectMeta.ownerReferences = [{ kind := "ReplicaSet", name := "nginx" }] ∧
      p.objectMeta.namespace_ = "default" := by
  refine ⟨by decide, ?_⟩
  obtain ⟨p, hp, howner, hns, -⟩ :=
    (Map_create_owner_labels auditr.twoChecks compliance.oneFailure kubebench.fourLeaves
      (by decide)).1
  exact ⟨p, hp, by rw [howner]; rfl, by rw [hns]; rfl⟩

/-- C17: the create path and the update path agree. For every report and
every existing record `e`, the results of `Map` on `e` are the results of
`Map` without a record, for the three mappers (audit: report with at least one
check); for the audit and the benchmark mapper the summaries agree as well. -/
theorem Map_update_eq_create (ra : auditr.ConfigAuditReport)
    (rc : compliance.ClusterComplianceDetailReport) (rb : kubebench.CISKubeBenchReport)
    (e : PolicyReport) (h : ra.report.checks ≠ []) :
    (∃ p p0, (auditr.Map ra (some e)).record = some p ∧
      (auditr.Map ra none).record = some p0 ∧
      p.results = p0.results ∧ p.summary = p0.summary) ∧
    (∃ p p0, (compliance.Map rc (some e)).record = some p ∧
      (compliance.Map rc none).record = some p0 ∧
      p.results = p0.results) ∧
    (∃ p p0, (kubebench.Map rb (some e)).record = some p ∧
      (kubebench.Map rb none).record = some p0 ∧
      p.results = p0.results ∧ p.summary = p0.summary) := by
  refine ⟨?_, ?_, ?_⟩
  · rw [auditr.audit_Map_eq ra (some e) h, auditr.audit_Map_eq ra none h]
    exact ⟨_, _, rfl, rfl, rfl, rfl⟩
  · rw [compliance.compliance_Map_eq rc (some e), compliance.compliance_Map_eq rc none]
    exact ⟨_, _, rfl, rfl, rfl⟩
  · rw [kubebench.bench_Map_eq rb (some e), kubebench.bench_Map_eq rb none]
    exact ⟨_, _, rfl, rfl, rfl, rfl⟩

/-- C17, witness: the sample reports mapped onto the stale record and mapped
without a record. -/
theorem Map_update_eq_create_witness :
    auditr.twoChecks.report.checks ≠ [] ∧
    ∃ p p0, (auditr.Map auditr.twoChecks (some staleRecord)).record = some p ∧
      (auditr.Map auditr.twoChecks none).record = some p0 ∧
      p.results = p0.results ∧ p.summary = p0.summary :=
  ⟨by decide,
    (Map_update_eq_create auditr.twoChecks compliance.oneFailure kubebench.fourLeaves
      staleRecord (by decide)).1⟩

/-! ## Severities -/

theorem compliance_MapServerity_eq (s : Severity) :
    compliance.MapServerity s = auditr.MapServerity s := rfl

theorem audit_MapServerity_mem (s : Severity) :
    auditr.MapServerity s ∈ ["", "low", "medium", "high", "critical", "info"] := by
  unfold auditr.MapServerity
  split_ifs <;> decide

theorem audit_MapServerity_known (s : Severity)
    (h : s ∈ ["UNKNOWN", "LOW", "MEDIUM", "HIGH", "CRITICAL"]) :
    auditr.MapServerity s ∈ ["", "low", "medium", "high", "critical"] := by
  simp only [List.mem_cons, List.mem_singleton, List.not_mem_nil, or_false] at h
  rcases h with h | h | h | h | h <;> subst h <;> decide

theorem audit_MapServerity_other (s : Severity)
    (h : s ∉ ["UNKNOWN", "LOW", "MEDIUM", "HIGH", "CRITICAL"]) :
    auditr.MapServerity s = "info" := by
  simp only [List.mem_cons, List.mem_singleton, List.not_mem_nil, or_false, not_or] at h
  obtain ⟨h1, h2, h3, h4, h5⟩ := h
  simp [auditr.MapServerity, v1alpha1.SeverityUnknown, v1alpha1.SeverityLow,
    v1alpha1.SeverityMedium, v1alpha1.SeverityHigh, v1alpha1.SeverityCritical, h1, h2, h3, h4,
    h5, v1alpha2.SeverityInfo]

/-- C14, counterexample: the audit report whose check has the severity `NONE`
is mapped to a result with the severity `info`, which is none of unset, low,
medium, high, critical. -/
theorem severity_scale_counterexample :
    ∃ p res, (auditr.Map auditr.labelled none).record = some p ∧
      p.results[0]? = some res ∧ res.severity = "info" ∧
      res.severity ∉ ["", "low", "medium", "high", "critical"] :=
  ⟨_, _, rfl, rfl, by decide, by decide⟩

/-- C14, amended: for the audit mapper (report with at least one check) and
the compliance mapper, whatever strings the checks carry as severity, the
severity of every emitted result is one of unset (empty), low, medium, high,
critical, info. Check by check (for the compliance mapper: entry by entry,
with the severity of the control check of the entry), the result emitted for
a check is within unset, low, medium, high, critical when the severity of
that check is one of `UNKNOWN`, `LOW`, `MEDIUM`, `HIGH`, `CRITICAL` (it is
then unset, low, medium, high, critical respectively), whatever the other
checks of the report carry, and it is `info` when the severity of that check
is any other string. Hence all results are within the five levels when every
check of the report has a recognised severity. -/
theorem Map_severity_scale (ra : auditr.ConfigAuditReport)
    (rc : compliance.ClusterComplianceDetailReport) (pa pc : Option PolicyReport)
    (h : ra.report.checks ≠ []) :
    (∃ p, (auditr.Map ra pa).record = some p ∧
      (∀ r ∈ p.results, r.severity ∈ ["", "low", "medium", "high", "critical", "info"]) ∧
      ((∀ c ∈ ra.report.checks, c.severity ∈ ["UNKNOWN", "LOW", "MEDIUM", "HIGH", "CRITICAL"]) →
        ∀ r ∈ p.results, r.severity ∈ ["", "low", "medium", "high", "critical"]) ∧
      (∀ (i : Nat) (check : auditr.Check), ra.report.checks[i]? = some check →
        ∃ res, p.results[i]? = some res ∧
          res.severity ∈ ["", "low", "medium", "high", "critical", "info"] ∧
          (check.severity ∈ ["UNKNOWN", "LOW", "MEDIUM", "HIGH", "CRITICAL"] →
            res.severity ∈ ["", "low", "medium", "high", "critical"]) ∧
          (check.severity ∉ ["UNKNOWN", "LOW", "MEDIUM", "HIGH", "CRITICAL"] →
            res.severity = "info") ∧
          (check.severity = "UNKNOWN" → res.severity = "") ∧
          (check.severity = "LOW" → res.severity = "low") ∧
          (check.severity = "MEDIUM" → res.severity = "medium") ∧
          (check.severity = "HIGH" → res.severity = "high") ∧
          (check.severity = "CRITICAL" → res.severity = "critical"))) ∧
    (∃ p, (compliance.Map rc pc).record = some p ∧
      (∀ r ∈ p.results, r.severity ∈ ["", "low", "medium", "high", "critical", "info"]) ∧
      ((∀ c ∈ rc.report.controlChecks,
          c.severity ∈ ["UNKNOWN", "LOW", "MEDIUM", "HIGH", "CRITICAL"]) →
        ∀ r ∈ p.results, r.severity ∈ ["", "low", "medium", "high", "critical"]) ∧
      (∀ (i : Nat) (check : compliance.ControlCheckDetails)
        (result : compliance.ScannerCheckResult) (details : compliance.ResultDetails),
        (compliance.triples rc)[i]? = some (check, result, details) →
        ∃ res, p.results[i]? = some res ∧
          res.severity ∈ ["", "low", "medium", "high", "critical", "info"] ∧
          (check.severity ∈ ["UNKNOWN", "LOW", "MEDIUM", "HIGH", "CRITICAL"] →
            res.severity ∈ ["", "low", "medium", "high", "critical"]) ∧
          (check.severity ∉ ["UNKNOWN", "LOW", "MEDIUM", "HIGH", "CRITICAL"] →
            res.severity = "info") ∧
          (check.severity = "UNKNOWN" → res.severity = "") ∧
          (check.severity = "LOW" → res.severity = "low") ∧
          (check.severity = "MEDIUM" → res.severity = "medium") ∧
          (check.severity = "HIGH" → res.severity = "high") ∧
          (check.severity = "CRITICAL" → res.severity = "critical"))) := by
  constructor
  · rw [auditr.audit_Map_eq ra pa h]
    refine ⟨_, rfl, ?_, ?_, ?_⟩
    · intro r hr
      simp only [auditr.mapped, List.mem_map] at hr
      obtain ⟨c, -, rfl⟩ := hr
      exact audit_MapServerity_mem c.severity
    · intro hall r hr
      simp only [auditr.mapped, List.mem_map] at hr
      obtain ⟨c, hc, rfl⟩ := hr
      exact audit_MapServerity_known c.severity (hall c hc)
    · intro i check hi
      refine ⟨auditr.checkResult ra (auditr.CreateObjectReference ra) check, ?_,
        audit_MapServerity_mem check.severity, audit_MapServerity_known check.severity,
        audit_MapServerity_other check.severity, ?_, ?_, ?_, ?_, ?_⟩
      · simp [auditr.mapped, List.getElem?_map, hi]
      all_goals
        intro hsev
        show auditr.MapServerity check.severity = _
        rw [hsev]
        rfl
  · rw [compliance.compliance_Map_eq rc pc]
    refine ⟨_, rfl, ?_, ?_, ?_⟩
    · intro r hr
      simp only [compliance.mapped, List.mem_map] at hr
      obtain ⟨x, -, rfl⟩ := hr
      exact audit_MapServerity_mem x.1.severity
    · intro hall r hr
      simp only [compliance.mapped, List.mem_map] at hr
      obtain ⟨x, hx, rfl⟩ := hr
      have hmem : x.1 ∈ rc.report.controlChecks := by
        simp only [compliance.triples, List.mem_flatMap, List.mem_map] at hx
        obtain ⟨check, hcheck, result, -, details, -, rfl⟩ := hx
        exact hcheck
      exact audit_MapServerity_known x.1.severity (hall x.1 hmem)
    · intro i check result details hi
      refine ⟨compliance.detailResult rc check result details, ?_,
        audit_MapServerity_mem check.severity, audit_MapServerity_known check.severity,
        audit_MapServerity_other check.severity, ?_, ?_, ?_, ?_, ?_⟩
      · simp [compliance.mapped, List.getElem?_map, hi]
      all_goals
        intro hsev
        show auditr.MapServerity check.severity = _
        rw [hsev]
        rfl

/-- C14, witness of the amended claim: in the audit report with a check of
severity `LOW` followed by a check of severity `bogus`, the first result has
the severity low, within the five levels, and the second has the severity
info. -/
theorem Map_severity_scale_witness :
    auditr.mixedSeverities.report.checks ≠ [] ∧
    ∃ p r0 r1, (auditr.Map auditr.mixedSeverities none).record = some p ∧
      p.results[0]? = some r0 ∧ p.results[1]? = some r1 ∧
      r0.severity = "low" ∧ r0.severity ∈ ["", "low", "medium", "high", "critical"] ∧
      r1.severity = "info" := by
  refine ⟨by decide, ?_⟩
  obtain ⟨p, hp, -, -, hcheck⟩ :=
    (Map_severity_scale auditr.mixedSeverities compliance.twoObjects none none (by decide)).1
  obtain ⟨r0, h0, -, hknown, -, -, hlow, -⟩ :=
    hcheck 0 { id := "KSV001", title := "Process can elevate its own privileges"
               description := "d1", severity := "LOW", success := false } (by decide)
  obtain ⟨r1, h1, -, -, hother, -⟩ :=
    hcheck 1 { id := "KSV003", title := "Default capabilities not dropped"
               description := "d2", severity := "bogus", success := false } (by decide)
  exact ⟨p, r0, r1, hp, h0, h1, hlow rfl, hknown (by decide), hother (by decide)⟩

/-- C15, counterexample: the severity normalizers of the audit and of the
compliance mapper send the source severity `NONE` to `info`, not to the empty
severity. -/
theorem MapServerity_none_counterexample :
    v1alpha1.SeverityNone = "NONE" ∧
    auditr.MapServerity v1alpha1.SeverityNone = "info" ∧
    compliance.MapServerity v1alpha1.SeverityNone = "info" ∧
    auditr.MapServerity v1alpha1.SeverityNone ≠ "" ∧
    compliance.MapServerity v1alpha1.SeverityNone ≠ "" := by
  decide

/-- C15, amended: the source severity `UNKNOWN` is mapped to the empty
severity by the normalizer of every mapper; the source severity `NONE` is
mapped to the empty severity by `kubebench.MapServerity`, and to `info` by
`auditr.MapServerity` and `compliance.MapServerity`. -/
theorem MapServerity_unknown_none :
    (auditr.MapServerity "UNKNOWN" = "" ∧ compliance.MapServerity "UNKNOWN" = "" ∧
      kubebench.MapServerity "UNKNOWN" = "") ∧
    kubebench.MapServerity "NONE" = "" ∧
    auditr.MapServerity "NONE" = v1alpha2.SeverityInfo ∧
    compliance.MapServerity "NONE" = v1alpha2.SeverityInfo := by
  decide

/-- C18: `auditr.MapServerity` and `compliance.MapServerity` agree on every
string; they send `UNKNOWN` to the empty severity, `LOW` to low, `MEDIUM` to
medium, `HIGH` to high, `CRITICAL` to critical, and every other string to
info. -/
theorem MapServerity_table (s : Severity) :
    auditr.MapServerity s = compliance.MapServerity s ∧
    (auditr.MapServerity "UNKNOWN" = "" ∧ auditr.MapServerity "LOW" = "low" ∧
      auditr.MapServerity "MEDIUM" = "medium" ∧ auditr.MapServerity "HIGH" = "high" ∧
      auditr.MapServerity "CRITICAL" = "critical") ∧
    (compliance.MapServerity "UNKNOWN" = "" ∧ compliance.MapServerity "LOW" = "low" ∧
      compliance.MapServerity "MEDIUM" = "medium" ∧ compliance.MapServerity "HIGH" = "high" ∧
      compliance.MapServerity "CRITICAL" = "critical") ∧
    (s ≠ "UNKNOWN" → s ≠ "LOW" → s ≠ "MEDIUM" → s ≠ "HIGH" → s ≠ "CRITICAL" →
      auditr.MapServerity s = "info" ∧ compliance.MapServerity s = "info") := by
  refine ⟨rfl, by decide, by decide, ?_⟩
  intro h1 h2 h3 h4 h5
  have hother : auditr.MapServerity s = "info" :=
    audit_MapServerity_other s (by simp [h1, h2, h3, h4, h5])
  exact ⟨hother, by rw [compliance_MapServerity_eq]; exact hother⟩

/-- C18, witness: the severity `negligible` is none of the five recognised
values and is mapped to `info` by both normalizers. -/
theorem MapServerity_table_witness :
    auditr.MapServerity "negligible" = "info" ∧ compliance.MapServerity "negligible" = "info" :=
  (MapServerity_table "negligible").2.2.2 (by decide) (by decide) (by decide) (by decide)
    (by decide)

/-- C20: `kubebench.MapServerity` sends `UNKNOWN` and `NONE` to the empty
severity, `LOW` to low, `MEDIUM` to medium and every other string to high; in
particular `HIGH` and `CRITICAL` both go to high, and critical is never
produced. On every string outside `UNKNOWN`, `NONE`, `LOW`, `MEDIUM`, `HIGH` its
value, high, differs from the value of `auditr.MapServerity` and
`compliance.MapServerity`, which is critical on `CRITICAL` and the default
info elsewhere. -/
theorem kubebench_MapServerity_table (s : Severity) :
    (kubebench.MapServerity "UNKNOWN" = "" ∧ kubebench.MapServerity "NONE" = "" ∧
      kubebench.MapServerity "LOW" = "low" ∧ kubebench.MapServerity "MEDIUM" = "medium" ∧
      kubebench.MapServerity "HIGH" = "high" ∧ kubebench.MapServerity "CRITICAL" = "high") ∧
    (s ≠ "UNKNOWN" → s ≠ "NONE" → s ≠ "LOW" → s ≠ "MEDIUM" →
      kubebench.MapServerity s = "high") ∧
    kubebench.MapServerity s ≠ "critical" ∧
    (s ≠ "UNKNOWN" → s ≠ "NONE" → s ≠ "LOW" → s ≠ "MEDIUM" → s ≠ "HIGH" →
      kubebench.MapServerity s = "high" ∧
      auditr.MapServerity s ≠ kubebench.MapServerity s ∧
      compliance.MapServerity s ≠ kubebench.MapServerity s ∧
      (s ≠ "CRITICAL" → auditr.MapServerity s = "info" ∧ compliance.MapServerity s = "info")) := by
  have hhigh : s ≠ "UNKNOWN" → s ≠ "NONE" → s ≠ "LOW" → s ≠ "MEDIUM" →
      kubebench.MapServerity s = "high" := by
    intro h1 h2 h3 h4
    simp [kubebench.MapServerity, v1alpha1.SeverityUnknown, v1alpha1.SeverityNone,
      v1alpha1.SeverityLow, v1alpha1.SeverityMedium, v1alpha2.SeverityHigh, h1, h2, h3, h4]
  refine ⟨by decide, hhigh, ?_, ?_⟩
  · unfold kubebench.MapServerity
    split_ifs <;> decide
  · intro h1 h2 h3 h4 h5
    have hb := hhigh h1 h2 h3 h4
    have ha : auditr.MapServerity s ≠ "high" := by
      by_cases h6 : s = "CRITICAL"
      · subst h6; decide
      · rw [audit_MapServerity_other s (by simp [h1, h3, h4, h5, h6])]
        decide
    refine ⟨hb, by rw [hb]; exact ha, by rw [hb, compliance_MapServerity_eq]; exact ha, ?_⟩
    intro h6
    have hother := audit_MapServerity_other s (by simp [h1, h3, h4, h5, h6])
    exact ⟨hother, by rw [compliance_MapServerity_eq]; exact hother⟩

/-- C20, witness: `CRITICAL` is mapped to high by the benchmark normalizer and
to critical by the audit normalizer. -/
theorem kubebench_MapServerity_table_witness :
    kubebench.MapServerity "CRITICAL" = "high" ∧
    auditr.MapServerity "CRITICAL" ≠ kubebench.MapServerity "CRITICAL" := by
  obtain ⟨hb, ha, -⟩ :=
    (kubebench_MapServerity_table "CRITICAL").2.2.2 (by decide) (by decide) (by decide)
      (by decide) (by decide)
  exact ⟨hb, ha⟩

/-! ## Results of the benchmark mapper -/

/-- C19: for every benchmark report, on either upsert path, the results are
one per leaf result, in the order section, test, result of the three nested
loops. The result of a leaf has policy = section of the test, a blank, the
description of the test; rule = test number, a blank, the description of the
leaf; message = remediation of the leaf; category = text of the section; no
resource reference and no severity. -/
theorem kubebench_Map_results (report : kubebench.CISKubeBenchReport)
    (polr : Option PolicyReport) :
    ∃ p, (kubebench.Map report polr).record = some p ∧
      p.results.length = (kubebench.leaves report).length ∧
      ∀ (i : Nat) (sect : kubebench.CISKubeBenchSection) (test : kubebench.CISKubeBenchTests)
        (result : kubebench.CISKubeBenchResult),
        (kubebench.leaves report)[i]? = some (sect, test, result) →
        ∃ res, p.results[i]? = some res ∧
          res.policy = test.section_ ++ " " ++ test.desc ∧
          res.rule = result.testNumber ++ " " ++ result.testDesc ∧
          res.message = result.remediation ∧
          res.category = sect.text ∧
          res.resources = [] ∧
          res.severity = "" := by
  rw [kubebench.bench_Map_eq report polr]
  refine ⟨_, rfl, ?_, ?_⟩
  · simp [kubebench.mapped]
  · intro i sect test result hi
    refine ⟨kubebench.leafResult report sect test result, ?_, rfl, rfl, rfl, rfl, rfl, rfl⟩
    simp [kubebench.mapped, List.getElem?_map, hi]

/-- C19, witness: the report with four leaves under two tests of one section
is mapped to four results; the third, for the leaf `1.2.1` of the test `1.2`,
has the policy `1.2 API Server` and the category `Control Plane`. -/
theorem kubebench_Map_results_witness :
    ∃ p res, (kubebench.Map kubebench.fourLeaves none).record = some p ∧
      p.results.length = 4 ∧ p.results[2]? = some res ∧
      res.policy = "1.2 API Server" ∧ res.rule = "1.2.1 " ∧
      res.category = "Control Plane" ∧ res.resources = [] ∧ res.severity = "" := by
  obtain ⟨p, hp, hlen, hall⟩ := kubebench_Map_results kubebench.fourLeaves none
  have hleaf : (kubebench.leaves kubebench.fourLeaves)[2]? =
      some ({ id := "1", text := "Control Plane"
              tests :=
                [{ section_ := "1.1", desc := "Configuration Files"
                   results :=
                     [{ testNumber := "1.1.1", status := "FAIL" },
                      { testNumber := "1.1.2", status := "PASS" }] },
                 { section_ := "1.2", desc := "API Server"
                   results :=
                     [{ testNumber := "1.2.1", status := "WARN" },
                      { testNumber := "1.2.2", status := "INFO" }] }] },
            { section_ := "1.2", desc := "API Server"
              results :=
                [{ testNumber := "1.2.1", status := "WARN" },
                 { testNumber := "1.2.2", status := "INFO" }] },
            { testNumber := "1.2.1", status := "WARN" }) := by decide
  obtain ⟨res, hres, hpol, hrule, -, hcat, hrefs, hsev⟩ := hall 2 _ _ _ hleaf
  exact ⟨p, res, hp, by rw [hlen]; decide, hres, by rw [hpol]; decide, by rw [hrule]; decide,
    by rw [hcat], hrefs, hsev⟩
